import Mathlib

/-!
Verification development for the BuildFlow backend chat endpoint
(`backend/app/routes/chat.py`).  The Python code is shallowly embedded:
strings are modelled as `List Char` (converted from Lean `String` at the
boundaries), Python's `json.loads` as a fuelled recursive-descent parser
returning `Except`, the regular expressions of the endpoint as the
deterministic scanning functions they denote, and the request handler as a
pure function over an explicit environment of collaborator outcomes,
returning the HTTP result together with the trace of store/provider calls.
-/

namespace BuildFlow

/-! ## Python string primitives -/

/-- Python `str.strip()` whitespace class (ASCII part, which is all the
endpoint's fixed strings use). -/
def isPySpace (c : Char) : Bool :=
  c = ' ' || c = '\t' || c = '\n' || c = '\x0d' || c = '\x0c' || c = '\x0b'

/-- Python `str.strip()` on a character list. -/
def pyStrip (l : List Char) : List Char :=
  ((l.dropWhile isPySpace).reverse.dropWhile isPySpace).reverse

/-- Python `str.lower()` (ASCII). -/
def pyLower (l : List Char) : List Char := l.map Char.toLower

/-- Python `str.upper()` (ASCII). -/
def pyUpper (l : List Char) : List Char := l.map Char.toUpper

/-- `needle.isPrefixOf hay` on char lists. -/
def isPrefixL : List Char → List Char → Bool
  | [], _ => true
  | _ :: _, [] => false
  | a :: as, b :: bs => a = b && isPrefixL as bs

/-- Python `needle in hay` (substring test). -/
def containsSub (hay needle : List Char) : Bool :=
  match hay with
  | [] => isPrefixL needle []
  | _ :: rest => isPrefixL needle hay || containsSub rest needle

/-- Index of the first occurrence of a substring (Python `str.find` on a
nonempty needle), `none` when absent. -/
def firstSubIdxAux (needle : List Char) (i : Nat) (hay : List Char) :
    Option Nat :=
  match hay with
  | [] => if isPrefixL needle [] then some i else none
  | _ :: rest =>
    if isPrefixL needle hay then some i
    else firstSubIdxAux needle (i + 1) rest

def firstSubIdx (hay needle : List Char) : Option Nat :=
  firstSubIdxAux needle 0 hay

/-- Python `str.find(c)` for a single character, as an `Option`. -/
def firstCharIdx (l : List Char) (c : Char) : Option Nat :=
  l.findIdx? (· = c)

/-- Python `str.rfind(c)` for a single character, as an `Option`. -/
def lastCharIdx (l : List Char) (c : Char) : Option Nat :=
  (l.reverse.findIdx? (· = c)).map (fun j => l.length - 1 - j)

/-- Python `s[:n]` on char lists. -/
def pyTake (n : Nat) (l : List Char) : List Char := l.take n

/-- Python `str.replace(pat, "")` — remove every (non-overlapping,
leftmost-first) occurrence of `pat`. -/
def removeAllSub (fuel : Nat) (l pat : List Char) : List Char :=
  match fuel, l with
  | 0, _ => l
  | _, [] => []
  | fuel + 1, c :: rest =>
    if pat ≠ [] && isPrefixL pat l then
      removeAllSub fuel (l.drop pat.length) pat
    else
      c :: removeAllSub fuel rest pat

/-- Python `str.strip('\x7b\x7d')`: drop leading and trailing braces. -/
def stripBraces (l : List Char) : List Char :=
  let isBrace : Char → Bool := fun c => c = '{' || c = '}'
  ((l.dropWhile isBrace).reverse.dropWhile isBrace).reverse

/-- `"\n".join`-style joining of rendered lines. -/
def joinLines : List (List Char) → List Char
  | [] => []
  | [x] => x
  | x :: rest => x ++ '\n' :: joinLines rest

/-- Stable insertion used by `stableSortBy`: `keep y x = true` means the
already-placed `y` stays in front of the newly inserted `x`. -/
def insBy (keep : α → α → Bool) (x : α) : List α → List α
  | [] => [x]
  | y :: r => if keep y x then y :: insBy keep x r else x :: y :: r

/-- Stable sort (insertion sort driven by `foldl`), mirroring the stability
guarantee of Python's `list.sort`. -/
def stableSortBy (keep : α → α → Bool) (l : List α) : List α :=
  l.foldl (fun acc x => insBy keep x acc) []

theorem mem_insBy (keep : α → α → Bool) (x a : α) (l : List α) :
    a ∈ insBy keep x l ↔ a = x ∨ a ∈ l := by
  induction l with
  | nil => simp [insBy]
  | cons y r ih =>
    simp only [insBy]
    split
    · simp only [List.mem_cons, ih]; tauto
    · simp only [List.mem_cons]

theorem mem_stableSortBy (keep : α → α → Bool) (l : List α) (a : α) :
    a ∈ stableSortBy keep l ↔ a ∈ l := by
  suffices h : ∀ acc, a ∈ l.foldl (fun acc x => insBy keep x acc) acc ↔ a ∈ l ∨ a ∈ acc by
    simpa [stableSortBy] using h []
  induction l with
  | nil => intro acc; simp
  | cons x r ih =>
    intro acc
    simp only [List.foldl_cons, ih, mem_insBy, List.mem_cons]
    tauto

theorem isPrefixL_append_left (n : List Char) :
    ∀ (a b : List Char), n.length ≤ a.length →
      isPrefixL n (a ++ b) = isPrefixL n a := by
  induction n with
  | nil => intro a b _; simp [isPrefixL]
  | cons x n' ih =>
    intro a b h
    cases a with
    | nil => simp at h
    | cons y a' =>
      simp only [List.cons_append, isPrefixL]
      rw [show a'.append b = a' ++ b from rfl, ih a' b (by simpa using h)]

theorem containsSub_cons (c : Char) (t n : List Char) :
    containsSub (c :: t) n = (isPrefixL n (c :: t) || containsSub t n) := rfl

theorem containsSub_cons_false (c : Char) (t n : List Char)
    (h : containsSub (c :: t) n = false) :
    isPrefixL n (c :: t) = false ∧ containsSub t n = false := by
  rw [containsSub_cons] at h
  simpa using h

/-- Peeling lemma: a needle absent from `ahead ++ atail` and from
`atail ++ b` (with `atail` at least one character shorter than the
needle is long — so no occurrence can start left of `atail` and end in
`b`) is absent from the whole concatenation. -/
theorem containsSub_append_false_aux (atail b n : List Char)
    (hlen : n.length ≤ atail.length + 1) :
    ∀ ahead : List Char,
      containsSub (ahead ++ atail) n = false →
      containsSub (atail ++ b) n = false →
      containsSub ((ahead ++ atail) ++ b) n = false := by
  intro ahead
  induction ahead with
  | nil => intro _ h2; simpa using h2
  | cons c ah ih =>
    intro h1 h2
    obtain ⟨hpre, htail⟩ := containsSub_cons_false c (ah ++ atail) n h1
    have goal2 := ih htail h2
    have hcons : ((c :: ah ++ atail) ++ b) = c :: ((ah ++ atail) ++ b) := by simp
    rw [hcons, containsSub_cons, goal2]
    have hlen2 : n.length ≤ (c :: (ah ++ atail)).length := by
      simp only [List.length_cons, List.length_append]
      omega
    have : (c :: ((ah ++ atail) ++ b)) = (c :: (ah ++ atail)) ++ b := by simp
    rw [this, isPrefixL_append_left n _ b hlen2, hpre]
    rfl

/-- The peeling lemma with the split given as a drop index. -/
theorem containsSub_append_false (a b n : List Char) (k : Nat)
    (hlen : n.length ≤ (List.drop k a).length + 1)
    (h1 : containsSub a n = false)
    (h2 : containsSub (List.drop k a ++ b) n = false) :
    containsSub (a ++ b) n = false := by
  have hsplit : a = a.take k ++ a.drop k := (List.take_append_drop k a).symm
  rw [hsplit] at h1 ⊢
  exact containsSub_append_false_aux (a.drop k) b n hlen (a.take k) h1 h2

/-! ## JSON values and `json.loads`

Python JSON values are embedded as `JValue`; numbers keep their source
lexeme (no floating point is computed anywhere in the endpoint).  Objects
keep their members in source order; lookup follows `dict` semantics, where
a later duplicate key overwrites an earlier one. -/

inductive JValue where
  | null : JValue
  | bool (b : Bool) : JValue
  | num (lexeme : String) : JValue
  | str (s : String) : JValue
  | arr (items : List JValue) : JValue
  | obj (members : List (String × JValue)) : JValue

/-- `dict.get`: the value of the *last* occurrence of a key. -/
def objGet (members : List (String × JValue)) (k : String) : Option JValue :=
  match members with
  | [] => none
  | (k', v) :: rest =>
    match objGet rest k with
    | some r => some r
    | none => if k' = k then some v else none

/-- `key in dict`. -/
def objHasKey (members : List (String × JValue)) (k : String) : Bool :=
  members.any (fun p => p.1 = k)

def JValue.isObj : JValue → Bool
  | .obj _ => true
  | _ => false

def JValue.isArr : JValue → Bool
  | .arr _ => true
  | _ => false

/-- Python truthiness of a decoded JSON value (used by
`if not project_res.data`). -/
def pyTruthy : JValue → Bool
  | .null => false
  | .bool b => b
  | .num lex => (lex.toList.takeWhile (fun c => c ≠ 'e' && c ≠ 'E')).any
      (fun c => c.isDigit && c ≠ '0')
  | .str s => s ≠ ""
  | .arr xs => !xs.isEmpty
  | .obj ms => !ms.isEmpty

/-- JSON-specification whitespace skipped by the Python decoder. -/
def jsonWS (l : List Char) : List Char :=
  l.dropWhile (fun c => c = ' ' || c = '\t' || c = '\n' || c = '\x0d')

def hexDigitVal (c : Char) : Option Nat :=
  if '0' ≤ c ∧ c ≤ '9' then some (c.toNat - '0'.toNat)
  else if 'a' ≤ c ∧ c ≤ 'f' then some (c.toNat - 'a'.toNat + 10)
  else if 'A' ≤ c ∧ c ≤ 'F' then some (c.toNat - 'A'.toNat + 10)
  else none

/-- Decode a `\uXXXX` escape.  Valid surrogate pairs are combined as the
Python decoder does; a lone surrogate (which Python would keep as a
non-scalar code unit that `Char` cannot represent) is mapped to U+FFFD. -/
def decodeUnicodeEscape (h1 h2 h3 h4 : Nat) (rest : List Char) :
    Char × List Char :=
  let n := ((h1 * 16 + h2) * 16 + h3) * 16 + h4
  if n < 0xD800 ∨ 0xE000 ≤ n then
    (Char.ofNat n, rest)
  else
    match rest with
    | '\\' :: 'u' :: a :: b :: c :: d :: rest2 =>
      match hexDigitVal a, hexDigitVal b, hexDigitVal c, hexDigitVal d with
      | some g1, some g2, some g3, some g4 =>
        let m := ((g1 * 16 + g2) * 16 + g3) * 16 + g4
        if n < 0xDC00 ∧ 0xDC00 ≤ m ∧ m < 0xE000 then
          (Char.ofNat (0x10000 + (n - 0xD800) * 0x400 + (m - 0xDC00)), rest2)
        else (Char.ofNat 0xFFFD, rest)
      | _, _, _, _ => (Char.ofNat 0xFFFD, rest)
    | _ => (Char.ofNat 0xFFFD, rest)

/-- JSON string body parser: the input starts right after the opening
double quote; returns the decoded characters and the input after the
closing quote. -/
def parseJStringBody (fuel : Nat) (l : List Char) :
    Except String (List Char × List Char) :=
  match fuel, l with
  | 0, _ => .error "Unterminated string"
  | _ + 1, [] => .error "Unterminated string starting at"
  | fuel + 1, c :: rest =>
    if c = '"' then .ok ([], rest)
    else if c = '\\' then
      match rest with
      | [] => .error "Unterminated string starting at"
      | e :: rest2 =>
        if e = 'u' then
          match rest2 with
          | a :: b :: c3 :: d :: rest3 =>
            match hexDigitVal a, hexDigitVal b, hexDigitVal c3, hexDigitVal d with
            | some h1, some h2, some h3, some h4 =>
              let (ch, rest4) := decodeUnicodeEscape h1 h2 h3 h4 rest3
              (parseJStringBody fuel rest4).map (fun (s, r) => (ch :: s, r))
            | _, _, _, _ => .error "Invalid \\uXXXX escape"
          | _ => .error "Invalid \\uXXXX escape"
        else
          match (if e = '"' then some '"'
                 else if e = '\\' then some '\\'
                 else if e = '/' then some '/'
                 else if e = 'b' then some '\x08'
                 else if e = 'f' then some '\x0c'
                 else if e = 'n' then some '\n'
                 else if e = 'r' then some '\x0d'
                 else if e = 't' then some '\t'
                 else none) with
          | some ch => (parseJStringBody fuel rest2).map (fun (s, r) => (ch :: s, r))
          | none => .error "Invalid \\escape"
    else if c.toNat < 0x20 then .error "Invalid control character"
    else (parseJStringBody fuel rest).map (fun (s, r) => (c :: s, r))

/-- JSON number lexeme: `-?(0|[1-9][0-9]*)(\.[0-9]+)?([eE][+-]?[0-9]+)?`. -/
def parseNumberLexeme (l : List Char) : Option (List Char × List Char) :=
  let (sign, l1) :=
    match l with
    | '-' :: r => (['-'], r)
    | _ => (([] : List Char), l)
  match l1 with
  | [] => none
  | c :: _ =>
    if ¬ c.isDigit then none
    else
      -- the regex alternative `0|[1-9][0-9]*`: a leading zero ends the
      -- integer part immediately
      let intPart := if c = '0' then ['0'] else l1.takeWhile Char.isDigit
      let l2 := if c = '0' then l1.drop 1 else l1.dropWhile Char.isDigit
      let (fracPart, l3) :=
        match l2 with
        | '.' :: r =>
          let ds := r.takeWhile Char.isDigit
          if ds.isEmpty then (([] : List Char), l2)
          else ('.' :: ds, r.dropWhile Char.isDigit)
        | _ => (([] : List Char), l2)
      let (expPart, l4) :=
        match l3 with
        | e :: r =>
          if e = 'e' ∨ e = 'E' then
            let (s2, r2) :=
              match r with
              | '+' :: r' => (['+'], r')
              | '-' :: r' => (['-'], r')
              | _ => (([] : List Char), r)
            let ds := r2.takeWhile Char.isDigit
            if ds.isEmpty then (([] : List Char), l3)
            else (e :: (s2 ++ ds), r2.dropWhile Char.isDigit)
          else (([] : List Char), l3)
        | _ => (([] : List Char), l3)
      some (sign ++ intPart ++ fracPart ++ expPart, l4)

mutual

/-- One JSON value, positioned at its first character. -/
def parseVal (fuel : Nat) (l : List Char) :
    Except String (JValue × List Char) :=
  match fuel with
  | 0 => .error "Expecting value"
  | fuel + 1 =>
    match l with
    | [] => .error "Expecting value"
    | c :: rest =>
      if c = '"' then
        (parseJStringBody (rest.length + 1) rest).map
          (fun (s, r) => (.str (String.mk s), r))
      else if c = '{' then
        parseObjBody fuel (jsonWS rest)
      else if c = '[' then
        parseArrBody fuel (jsonWS rest)
      else if isPrefixL ['n', 'u', 'l', 'l'] l then .ok (.null, l.drop 4)
      else if isPrefixL ['t', 'r', 'u', 'e'] l then .ok (.bool true, l.drop 4)
      else if isPrefixL ['f', 'a', 'l', 's', 'e'] l then .ok (.bool false, l.drop 5)
      else
        match parseNumberLexeme l with
        | some (lex, r) => .ok (.num (String.mk lex), r)
        | none =>
          if isPrefixL ['N', 'a', 'N'] l then .ok (.num "NaN", l.drop 3)
          else if isPrefixL ['I', 'n', 'f', 'i', 'n', 'i', 't', 'y'] l then
            .ok (.num "Infinity", l.drop 8)
          else if isPrefixL ['-', 'I', 'n', 'f', 'i', 'n', 'i', 't', 'y'] l then
            .ok (.num "-Infinity", l.drop 9)
          else .error "Expecting value"

/-- Object body, positioned after `\x7b` and following whitespace. -/
def parseObjBody (fuel : Nat) (l : List Char) :
    Except String (JValue × List Char) :=
  match fuel with
  | 0 => .error "Expecting property name enclosed in double quotes"
  | fuel + 1 =>
    match l with
    | '}' :: rest => .ok (.obj [], rest)
    | _ => (parseMembers fuel l).map (fun (ms, r) => (.obj ms, r))

/-- One `"key": value` member and the members after it; positioned at the
opening quote of the key. -/
def parseMembers (fuel : Nat) (l : List Char) :
    Except String (List (String × JValue) × List Char) :=
  match fuel with
  | 0 => .error "Expecting property name enclosed in double quotes"
  | fuel + 1 =>
    match l with
    | '"' :: rest =>
      match parseJStringBody (rest.length + 1) rest with
      | .error e => .error e
      | .ok (key, r1) =>
        match jsonWS r1 with
        | ':' :: r2 =>
          match parseVal fuel (jsonWS r2) with
          | .error e => .error e
          | .ok (v, r3) =>
            match jsonWS r3 with
            | ',' :: r4 =>
              match parseMembers fuel (jsonWS r4) with
              | .error e => .error e
              | .ok (ms, r5) => .ok ((String.mk key, v) :: ms, r5)
            | '}' :: r4 => .ok ([(String.mk key, v)], r4)
            | _ => .error "Expecting ',' delimiter"
        | _ => .error "Expecting ':' delimiter"
    | _ => .error "Expecting property name enclosed in double quotes"

/-- Array body, positioned after `[` and following whitespace. -/
def parseArrBody (fuel : Nat) (l : List Char) :
    Except String (JValue × List Char) :=
  match fuel with
  | 0 => .error "Expecting value"
  | fuel + 1 =>
    match l with
    | ']' :: rest => .ok (.arr [], rest)
    | _ => (parseItems fuel l).map (fun (xs, r) => (.arr xs, r))

/-- One array item and the items after it. -/
def parseItems (fuel : Nat) (l : List Char) :
    Except String (List JValue × List Char) :=
  match fuel with
  | 0 => .error "Expecting value"
  | fuel + 1 =>
    match parseVal fuel l with
    | .error e => .error e
    | .ok (v, r1) =>
      match jsonWS r1 with
      | ',' :: r2 =>
        match parseItems fuel (jsonWS r2) with
        | .error e => .error e
        | .ok (xs, r3) => .ok (v :: xs, r3)
      | ']' :: r2 => .ok ([v], r2)
      | _ => .error "Expecting ',' delimiter"

end

/-- Model of Python `json.loads` on a character list: surrounding JSON
whitespace is allowed, trailing non-whitespace is "Extra data".  The error
strings are abbreviated forms of `json.JSONDecodeError` messages (the
endpoint only ever embeds them inside a fixed apology sentence). -/
def pyJsonLoadsL (l : List Char) : Except String JValue :=
  let t := jsonWS l
  match parseVal (t.length + 1) t with
  | .error e => .error e
  | .ok (v, rest) => if jsonWS rest = [] then .ok v else .error "Extra data"

/-! ## Response Normalizer (chat.py lines 686–798)

The two regular expressions of the endpoint are embedded as the
deterministic scanners they denote:

* `r'```(?:json)?\s*\n?(.*?)```'` (with `re.DOTALL`): after the opening
  fence and the optional `json` tag, `\s*` takes the maximal whitespace
  run (so the optional `\n?` can never match anything), and the lazy
  group extends to the *first* following fence.
* `r'\{[^\x7b\x7d]*(?:\{[^\x7b\x7d]*\}[^\x7b\x7d]*)*\}'`: since the
  character class excludes both braces, every quantifier's extent is
  forced and the match is computed by deterministic scanning.
-/

/-- Split at the first occurrence of a triple backtick: returns the
characters before it and the characters after it. -/
def findTripleSplit : List Char → Option (List Char × List Char)
  | [] => none
  | c :: rest =>
    if isPrefixL ['`', '`', '`'] (c :: rest) then some ([], rest.drop 2)
    else (findTripleSplit rest).map (fun p => (c :: p.1, p.2))

/-- Attempt the fenced-block regex anchored at the start of `l`; returns
`group(1)` on a match. -/
def fenceMatchAt (l : List Char) : Option (List Char) :=
  if isPrefixL ['`', '`', '`'] l then
    let r := l.drop 3
    let r1 := if isPrefixL ['j', 's', 'o', 'n'] r then r.drop 4 else r
    let r2 := r1.dropWhile isPySpace
    (findTripleSplit r2).map (fun p => p.1)
  else none

/-- `re.search` of the fenced-block pattern: first position with a match. -/
def fenceSearch : List Char → Option (List Char)
  | [] => none
  | c :: rest =>
    match fenceMatchAt (c :: rest) with
    | some g => some g
    | none => fenceSearch rest

/-- Python `str.rfind("```")` as the start index of the last triple
backtick. -/
def lastTripleIdx (l : List Char) : Option Nat :=
  ((List.range l.length).filter
    (fun i => isPrefixL ['`', '`', '`'] (l.drop i))).getLast?

/-- The `elif reply_text.startswith('```')` fallback (lines 695–706):
drop the first line (or the three backticks when the text is a single
line), truncate at the last triple backtick if any, and strip. -/
def manualFenceStrip (l : List Char) : List Char :=
  let l1 :=
    match firstCharIdx l '\n' with
    | some i => l.drop (i + 1)
    | none => l.drop 3
  let l2 :=
    match lastTripleIdx l1 with
    | some i => l1.take i
    | none => l1
  pyStrip l2

/-- Lines 691–706: regex fence stripping, with the manual fallback when
the text starts with a fence the regex could not close. -/
def fenceStep (l : List Char) : List Char :=
  match fenceSearch l with
  | some g => pyStrip g
  | none => if isPrefixL ['`', '`', '`'] l then manualFenceStrip l else l

/-- Lines 710–717: substring from the first `\x7b` to the last `\x7d`,
adopted only when its brace counts balance. -/
def braceStep (l : List Char) : List Char :=
  match firstCharIdx l '{', lastCharIdx l '}' with
  | some fb, some lb =>
    if fb < lb then
      let potential := (l.drop fb).take (lb + 1 - fb)
      if potential.count '{' = potential.count '}' then potential else l
    else l
  | _, _ => l

/-- Maximal run of non-brace characters and the remainder. -/
def munchNonBrace (l : List Char) : List Char × List Char :=
  (l.takeWhile (fun c => c ≠ '{' && c ≠ '}'),
   l.dropWhile (fun c => c ≠ '{' && c ≠ '}'))

/-- Continuation of the brace-pair regex after its opening `\x7b`:
`[^\x7b\x7d]*(?:\{[^\x7b\x7d]*\}[^\x7b\x7d]*)*\}`.  Returns the matched
characters (ending in the closing brace) and the remainder. -/
def braceTail (fuel : Nat) (l : List Char) : Option (List Char × List Char) :=
  match fuel with
  | 0 => none
  | fuel + 1 =>
    let (a, r) := munchNonBrace l
    match r with
    | '}' :: r2 => some (a ++ ['}'], r2)
    | '{' :: r2 =>
      let (b, r3) := munchNonBrace r2
      match r3 with
      | '}' :: r4 =>
        (braceTail fuel r4).map (fun p => (a ++ '{' :: (b ++ '}' :: p.1), p.2))
      | _ => none
    | _ => none

/-- `re.findall` of the brace-pair pattern: non-overlapping matches,
scanning left to right. -/
def findallBraceAux (fuel : Nat) (l : List Char) : List (List Char) :=
  match fuel, l with
  | 0, _ => []
  | _, [] => []
  | fuel + 1, c :: rest =>
    if c = '{' then
      match braceTail (rest.length + 1) rest with
      | some (t, r) => ('{' :: t) :: findallBraceAux fuel r
      | none => findallBraceAux fuel rest
    else findallBraceAux fuel rest

def findallBrace (l : List Char) : List (List Char) :=
  findallBraceAux (l.length + 1) l

/-- `json_matches.sort(key=len, reverse=True)` — stable, longest first. -/
def sortCandidates (cands : List (List Char)) : List (List Char) :=
  stableSortBy (fun y x => y.length ≥ x.length) cands

def defaultAckMsg : String := "I've processed your request."

def legacyArrayMsg : String := "I've updated your diagram."

def unparseableFormatMsg : String :=
  "I received your message, but couldn't parse the response format."

/-- The apology message of lines 795–796, embedding the first 100
characters of the decode error's text. -/
def apologyMsg (e : String) : String :=
  "I received your message, but encountered an error processing it. " ++
  "The AI response couldn't be parsed as JSON. Please try rephrasing " ++
  "your request. (Error: " ++ String.mk (pyTake 100 e.toList) ++ ")"

/-- `if not isinstance(operations, list): operations = []`. -/
def coerceOps (v : JValue) : JValue :=
  match v with
  | .arr _ => v
  | _ => .arr []

/-- Outcome of the parsing stage: a `(message, operations)` pair, or an
`AttributeError` escaping it (Python `.get` on a non-`dict`). -/
inductive ParseOutcome where
  | ok (message operations : JValue)
  | raiseAttributeError

/-- Whether the outcome is the escaping `AttributeError`. -/
def parseOutcomeIsRaise : ParseOutcome → Bool
  | .raiseAttributeError => true
  | _ => false

/-- The candidate loop of lines 769–780: first regex candidate that
decodes to an object containing `message` or `operations`. -/
def candLoop : List (List Char) → Option (JValue × JValue)
  | [] => none
  | c :: rest =>
    match pyJsonLoadsL c with
    | .ok (.obj members) =>
      if objHasKey members "message" || objHasKey members "operations" then
        some ((objGet members "message").getD (.str defaultAckMsg),
              coerceOps ((objGet members "operations").getD (.arr [])))
      else candLoop rest
    | .ok _ => candLoop rest
    | .error _ => candLoop rest

/-- The `except json.JSONDecodeError` block of lines 753–798, with `e`
the text of the strict decode's error. -/
def parseFallback (reply : List Char) (e : String) : ParseOutcome :=
  let jsonMatches := findallBrace reply
  match candLoop (sortCandidates jsonMatches) with
  | some (m, o) => .ok m o
  | none =>
    match pyJsonLoadsL reply with
    | .ok (.arr xs) => .ok (.str legacyArrayMsg) (.arr xs)
    | .ok _ => .ok (.str unparseableFormatMsg) (.arr [])
    | .error _ => .ok (.str (apologyMsg e)) (.arr [])

/-- Lines 741–798: strict decode with `.get` extraction, else the
fallback chain.  `.get` on a decoded non-`dict` raises `AttributeError`,
which is *not* caught by the `except json.JSONDecodeError` handler. -/
def parseStage (reply : List Char) : ParseOutcome :=
  match pyJsonLoadsL reply with
  | .ok (.obj members) =>
    .ok ((objGet members "message").getD (.str defaultAckMsg))
       (coerceOps ((objGet members "operations").getD (.arr [])))
  | .ok _ => .raiseAttributeError
  | .error e => parseFallback reply e

/-- The full normalization pipeline applied to the model's reply text:
the initial `.strip()` of line 686, fence stripping, brace extraction,
then the parsing stage. -/
def normalizeResponse (raw : String) : ParseOutcome :=
  parseStage (braceStep (fenceStep (pyStrip raw.toList)))

/-! ## Prompt Assembler (chat.py lines 516–586, 684)

The f-string template is reproduced verbatim (with `\x7b\x7d` escapes for
literal braces); the two interpolations split it into three segments. -/

/-- Prompt template text before the interpolated diagram (persona and the `Current diagram JSON:` header). -/
def sysInstrSeg1 : String :=
  "\n" ++
  "You are ArchCoach, a friendly and helpful AI assistant that helps users design system architecture diagrams.\n" ++
  "The diagram is represented as a JSON \"project\" with nodes and edges.\n" ++
  "\n" ++
  "Current diagram JSON:\n" ++
  ""

/-- Prompt template text between the diagram and the interpolated history (the `Recent chat:` header). -/
def sysInstrSeg2 : String :=
  "\n" ++
  "\n" ++
  "Recent chat:\n" ++
  ""

/-- Prompt template text: the two numbered instructions of lines 533–535. -/
def sysInstrInstructions : String :=
  "\n" ++
  "\n" ++
  "When the user sends an instruction, you should:\n" ++
  "1. Provide a friendly, conversational response explaining what you're doing\n" ++
  "2. Generate the necessary diagram operations to fulfill their request\n" ++
  "\n" ++
  ""

/-- Prompt template text: the JSON response-format contract of lines 537–545. -/
def sysInstrContract : String :=
  "You MUST respond with a JSON object in this exact format:\n" ++
  "\x7b\n" ++
  "  \"message\": \"A friendly, conversational explanation of what you're doing. Be helpful and clear. Describe what components you're adding, removing, or modifying.\",\n" ++
  "  \"operations\": [\n" ++
  "    \x7b\"op\": \"add_node\", \"payload\": \x7b\"id\": \"web-server-1\", \"type\": \"web-server\", \"position\": \x7b\"x\": 400, \"y\": 100\x7d, \"data\": \x7b\"name\": \"API Server\"\x7d\x7d, \"metadata\": \x7b\"x\": 400, \"y\": 100\x7d\x7d,\n" ++
  "    \x7b\"op\": \"add_node\", \"payload\": \x7b\"id\": \"database-1\", \"type\": \"database\", \"position\": \x7b\"x\": 400, \"y\": 300\x7d, \"data\": \x7b\"name\": \"PostgreSQL\"\x7d\x7d, \"metadata\": \x7b\"x\": 400, \"y\": 300\x7d\x7d,\n" ++
  "    \x7b\"op\": \"add_edge\", \"payload\": \x7b\"source\": \"web-server-1\", \"target\": \"database-1\"\x7d\x7d\n" ++
  "  ]\n" ++
  "\x7d\n" ++
  "\n" ++
  ""

/-- Prompt template text: the grid-positioning heuristics of lines 547–555. -/
def sysInstrGrid : String :=
  "IMPORTANT: When positioning nodes, use appropriate spacing:\n" ++
  "- Horizontal spacing: 250 pixels between nodes (e.g., x: 100, 350, 600, 850)\n" ++
  "- Vertical spacing: 250 pixels between rows (e.g., y: 100, 350, 600, 850)\n" ++
  "- Arrange nodes in a grid layout with 4 nodes per row\n" ++
  "- Start positions: x starts at 100, y starts at 100\n" ++
  "- Example positions for multiple nodes:\n" ++
  "  - Row 1: (100, 100), (350, 100), (600, 100), (850, 100)\n" ++
  "  - Row 2: (100, 350), (350, 350), (600, 350), (850, 350)\n" ++
  "  - Row 3: (100, 600), (350, 600), (600, 600), (850, 600)\n" ++
  "\n" ++
  ""

/-- Prompt template text: the operation-shape catalog of lines 557–562. -/
def sysInstrOperations : String :=
  "Available operations:\n" ++
  "- \"add_node\": \x7b\"op\": \"add_node\", \"payload\": \x7b\"id\": string (REQUIRED - use a descriptive ID like \"web-server-1\", \"database-1\", etc.), \"type\": string, \"position\": \x7b\"x\": number, \"y\": number\x7d, \"data\": \x7b\"name\": string, \"description\": string, \"attributes\": object\x7d\x7d, \"metadata\": \x7b\"x\": number, \"y\": number\x7d\x7d\n" ++
  "- \"update_node\": \x7b\"op\": \"update_node\", \"payload\": \x7b\"id\": string, \"data\": \x7b\"name\": string, \"description\": string, \"attributes\": object\x7d\x7d\x7d\n" ++
  "- \"delete_node\": \x7b\"op\": \"delete_node\", \"payload\": \x7b\"id\": string\x7d\x7d\n" ++
  "- \"add_edge\": \x7b\"op\": \"add_edge\", \"payload\": \x7b\"source\": string (MUST match a node ID from an add_node operation), \"target\": string (MUST match a node ID from an add_node operation), \"type\": string (optional)\x7d\x7d\n" ++
  "- \"delete_edge\": \x7b\"op\": \"delete_edge\", \"payload\": \x7b\"id\": string\x7d\x7d\n" ++
  "\n" ++
  ""

/-- Prompt template text: the `Available node types:` line of line 564. -/
def sysInstrNodeTypes : String :=
  "Available node types: web-server, database, worker, cache, queue, storage, third-party-api, compute-node, load-balancer, message-broker, cdn, monitoring\n" ++
  "\n" ++
  ""

/-- Prompt template text: the hierarchical-positioning and connection rules and final notes of lines 566–585. -/
def sysInstrCritical : String :=
  "CRITICAL RULES FOR POSITIONING NODES:\n" ++
  "1. Position nodes in a HIERARCHICAL layout: vertical flow overall, but horizontal arrangement for nodes at the same level\n" ++
  "2. Nodes at the SAME LEVEL (e.g., multiple web servers, multiple databases) should be arranged HORIZONTALLY with x values like 200, 400, 600, etc. (200px spacing)\n" ++
  "3. Different LEVELS should be arranged VERTICALLY with y values: level 0 at y: 100, level 1 at y: 300, level 2 at y: 500, etc. (200px vertical spacing between levels)\n" ++
  "4. Determine levels based on architecture: entry points (load-balancer, CDN) = level 0, application layer (web-server, worker) = level 1, data layer (database, cache) = level 2, etc.\n" ++
  "5. If creating multiple nodes at the same level, space them horizontally: first at x: 200, second at x: 400, third at x: 600, etc., all with the same y value\n" ++
  "6. Example: 2 web servers at level 1 should be at (x: 200, y: 300) and (x: 400, y: 300), then a database at level 2 at (x: 400, y: 500)\n" ++
  "\n" ++
  "CRITICAL RULES FOR CREATING CONNECTIONS:\n" ++
  "1. When creating nodes with \"add_node\", you MUST include an explicit \"id\" field in the payload (e.g., \"web-server-1\", \"database-1\", \"cache-1\")\n" ++
  "2. When creating edges with \"add_edge\", the \"source\" and \"target\" fields MUST reference the exact \"id\" values from the corresponding \"add_node\" operations\n" ++
  "3. Always create nodes BEFORE creating edges that connect them (nodes must exist before they can be connected)\n" ++
  "4. If you're creating multiple connected components, create all nodes first, then create all edges that connect them\n" ++
  "\n" ++
  "IMPORTANT:\n" ++
  "- The \"message\" field should be conversational and helpful, describing what you did (e.g., \"I've added a database node to your diagram!\")\n" ++
  "- The \"operations\" array should contain the actual diagram modifications\n" ++
  "- If the user asks a question or needs help (not a diagram modification), respond with a helpful message and an empty operations array: \x7b\"message\": \"...\", \"operations\": []\x7d\n" ++
  "- Return ONLY valid JSON. Do NOT wrap it in markdown code blocks (```json or ```).\n" ++
  "- Do NOT include any text outside the JSON object.\n" ++
  ""

/-- Prompt template text after the history, as its six sections in
composition order. -/
def sysInstrSeg3 : String :=
  sysInstrInstructions ++ sysInstrContract ++ sysInstrGrid ++
  sysInstrOperations ++ sysInstrNodeTypes ++ sysInstrCritical

/-- The `id` fields of the 36 entries of `AVAILABLE_NODE_TYPES`
(chat.py lines 27–424), in source order.  The full entries also carry a
label, a description and use cases; only the identifiers are needed here,
because the endpoint never interpolates `AVAILABLE_NODE_TYPES` into the
prompt at all. -/
def AVAILABLE_NODE_TYPE_IDS : List String :=
  ["web-server", "database", "worker", "cache", "queue", "storage",
   "third-party-api", "compute-node", "load-balancer", "message-broker",
   "cdn", "monitoring", "api-gateway", "dns", "vpc-network", "vpn-link",
   "auth-service", "identity-provider", "secrets-manager", "waf",
   "search-engine", "data-warehouse", "stream-processor", "etl-job",
   "scheduler", "serverless-function", "logging-service",
   "alerting-service", "status-page", "orchestrator",
   "notification-service", "email-service", "webhook-endpoint",
   "web-client", "mobile-app", "admin-panel"]

/-- Lines 523–586: the system instruction, as the three literal segments
around the interpolated diagram text and history text. -/
def systemInstruction (diagramText historyText : String) : String :=
  sysInstrSeg1 ++ diagramText ++ sysInstrSeg2 ++ historyText ++ sysInstrSeg3

/-- Line 684: `prompt = system_instruction + "\nUSER:\n" + req.message`. -/
def buildPrompt (diagramText historyText userMessage : String) : String :=
  systemInstruction diagramText historyText ++ "\nUSER:\n" ++ userMessage

/-- Lines 516–520: history rendered as `ROLE: content` lines, or the
fixed placeholder when the history is empty. -/
def renderHistory (rows : List (String × String)) : List Char :=
  if rows.isEmpty then "No previous messages.".toList
  else joinLines (rows.map (fun r => pyUpper r.1.toList ++ ':' :: ' ' :: r.2.toList))

/-! ## Model Resolver (chat.py lines 591–654) -/

/-- One entry of the provider's live model catalog. -/
structure ModelDesc where
  name : String
  supported_generation_methods : List String

/-- `model.name.split('/')[-1] if '/' in model.name else model.name`:
the characters after the last slash (the whole name when there is no
slash). -/
def displayName (full : String) : String :=
  String.mk ((full.toList.reverse.takeWhile (fun c => c ≠ '/')).reverse)

/-- Lines 594–602: keep the models advertising `generateContent`, as
`(display name, full name)` pairs. -/
def availableFromCatalog (models : List ModelDesc) : List (String × String) :=
  (models.filter
    (fun m => m.supported_generation_methods.contains "generateContent")).map
    (fun m => (displayName m.name, m.name))

/-- Lines 615–624: the static preference order. -/
def preferred_models : List String :=
  ["gemini-2.5-flash", "gemini-2.0-flash", "gemini-flash-latest",
   "gemini-2.5-flash-lite", "gemini-2.0-flash-lite", "gemini-pro-latest",
   "gemini-1.5-flash", "gemini-1.5-pro"]

/-- Lines 634–636: equality, prefix, or substring match. -/
def modelNameMatches (name preferred : String) : Bool :=
  name == preferred || isPrefixL preferred.toList name.toList ||
    containsSub name.toList preferred.toList

/-- Lines 638–639: reject names carrying an experimental or preview
marker. -/
def isFreeTierName (name : String) : Bool :=
  !(containsSub (pyLower name.toList) "-exp".toList) &&
  !(containsSub (pyLower name.toList) "-preview".toList)

/-- The inner loop of lines 632–643: first entry that matches the
preferred name *and* survives the free-tier check (a matching
experimental entry does not stop the scan). -/
def scanForPreferred (preferred : String) :
    List (String × String) → Option (String × String)
  | [] => none
  | m :: rest =>
    if modelNameMatches m.1 preferred && isFreeTierName m.1 then some m
    else scanForPreferred preferred rest

/-- The outer loop of lines 631–645: preferences in order. -/
def resolveFromPreferred (avail : List (String × String)) :
    List String → Option (String × String)
  | [] => none
  | p :: ps =>
    match scanForPreferred p avail with
    | some m => some m
    | none => resolveFromPreferred avail ps

/-- Lines 648–654: fallback to the first non-experimental,
non-preview available model. -/
def firstFreeTier : List (String × String) → Option (String × String)
  | [] => none
  | m :: rest => if isFreeTierName m.1 then some m else firstFreeTier rest

/-- Lines 629–654: full list-based resolution (both loops are guarded by
`available_models` being nonempty; on an empty list each yields nothing
either way). -/
def resolveModelFromCatalog (avail : List (String × String)) :
    Option (String × String) :=
  match resolveFromPreferred avail preferred_models with
  | some m => some m
  | none => firstFreeTier avail

/-! ## Chat-history query (chat.py lines 501–520) -/

/-- A row of the `chat_messages` table (the queried columns plus the
filtering key). -/
structure ChatMessageRow where
  project_id : String
  role : String
  content : String
  created_at : Nat
deriving DecidableEq

/-- Lines 502–510: `select ... eq(project_id) order(created_at, asc)
limit(20)` — PostgREST applies the limit to the *ascending* ordering, so
the earliest 20 rows are returned. -/
def chatHistoryQuery (table : List ChatMessageRow) (projectId : String) :
    List ChatMessageRow :=
  (stableSortBy (fun y x => y.created_at ≤ x.created_at)
    (table.filter (fun r => r.project_id = projectId))).take 20

/-- Modelled from the spec: the history the Prompt Assembler contract
asks for — "an ordered history of up to 20 most-recent chat messages
(oldest first)", i.e. the latest 20 by creation timestamp, reversed back
into chronological order. -/
def specHistoryQuery (table : List ChatMessageRow) (projectId : String) :
    List ChatMessageRow :=
  ((stableSortBy (fun y x => x.created_at ≤ y.created_at)
    (table.filter (fun r => r.project_id = projectId))).take 20).reverse

/-! ## Python `uuid.UUID` validation (chat.py lines 433–440) -/

def isHexDigit (c : Char) : Bool := (hexDigitVal c).isSome

mutual

/-- Nonempty base-16 digit sequence, single underscores allowed between
digits (Python `int(x, 16)` grouping rule). -/
def hexUnd : List Char → Bool
  | [] => false
  | c :: rest => isHexDigit c && hexUndRest rest

def hexUndRest : List Char → Bool
  | [] => true
  | '_' :: rest => hexUnd rest
  | c :: rest => isHexDigit c && hexUndRest rest

end

/-- Python `int(x, 16)` acceptance: surrounding whitespace, an optional
sign, an optional `0x`/`0X` prefix (an underscore may follow the
prefix), then grouped hex digits. -/
def pyIntHexParsable (l : List Char) : Bool :=
  let t1 := pyStrip l
  let t2 :=
    match t1 with
    | '+' :: r => r
    | '-' :: r => r
    | _ => t1
  match t2 with
  | '0' :: x :: r =>
    if x = 'x' ∨ x = 'X' then
      match r with
      | '_' :: r2 => hexUnd r2
      | _ => hexUnd r
    else hexUnd t2
  | _ => hexUnd t2

/-- Acceptance of cpython's `uuid.UUID(hex=s)`: remove every `urn:` and
`uuid:`, strip surrounding braces, remove hyphens, then require exactly
32 characters that `int(_, 16)` accepts. -/
def pyUuidValid (s : String) : Bool :=
  let h1 := removeAllSub (s.toList.length + 1) s.toList "urn:".toList
  let h2 := removeAllSub (h1.length + 1) h1 "uuid:".toList
  let h3 := stripBraces h2
  let h4 := h3.filter (fun c => c ≠ '-')
  h4.length = 32 && pyIntHexParsable h4

/-! ## Python `str()` rendering of a decoded JSON value

The f-string of line 528 interpolates the project's `diagram_json` dict
with `str()`; this mirrors that rendering (dict/list syntax, `None`,
`True`/`False`, quoted strings). -/

/-- One character of a Python string repr quoted by `q`. -/
def pyReprStringChar (q c : Char) : List Char :=
  if c = '\\' then ['\\', '\\']
  else if c = '\n' then ['\\', 'n']
  else if c = '\x0d' then ['\\', 'r']
  else if c = '\t' then ['\\', 't']
  else if c = q then ['\\', q]
  else [c]

/-- Python `repr` of a string: single quotes, switching to double quotes
when the text holds a single quote but no double quote. -/
def pyReprString (s : String) : String :=
  let hasS := s.toList.contains '\''
  let hasD := s.toList.contains '"'
  let q := if hasS && !hasD then '"' else '\''
  String.mk (q :: (s.toList.flatMap (pyReprStringChar q)) ++ [q])

mutual

def pyRepr : JValue → String
  | .null => "None"
  | .bool b => if b then "True" else "False"
  | .num lex => lex
  | .str s => pyReprString s
  | .arr xs => "[" ++ pyReprItems xs ++ "]"
  | .obj ms => "\x7b" ++ pyReprMembers ms ++ "\x7d"

def pyReprItems : List JValue → String
  | [] => ""
  | [x] => pyRepr x
  | x :: rest => pyRepr x ++ ", " ++ pyReprItems rest

def pyReprMembers : List (String × JValue) → String
  | [] => ""
  | [(k, v)] => pyReprString k ++ ": " ++ pyRepr v
  | (k, v) :: rest => pyReprString k ++ ": " ++ pyRepr v ++ ", " ++ pyReprMembers rest

end

/-! ## Chat Orchestrator (chat.py lines 426–831)

The handler is embedded as a pure function of the request and an
environment recording each collaborator's outcome for this request; it
returns the HTTP result together with the ordered trace of store and
provider calls it performed. -/

structure ChatRequest where
  projectId : String
  message : String

/-- Outcome of `supabase.table("projects")...single().execute()`:
a postgrest `APIError` (with its extracted message and code), any other
exception, or a result row. -/
inductive StoreLookupResult where
  | apiError (message code : String)
  | otherError (message : String)
  | success (data : Option JValue)

/-- One row handed to `chat_messages.insert`. -/
structure InsertRow where
  project_id : String
  role : String
  content : JValue

/-- One store or provider call performed by the handler. -/
inductive Effect where
  | storeSelectProject (projectId : String)
  | storeSelectHistory (projectId : String)
  | providerListModels
  | providerCreateModel (name : String)
  | providerGenerate (model : String)
  | storeInsert (rows : List InsertRow)

structure HttpError where
  status : Nat
  detail : String

structure ChatReply where
  message : JValue
  operations : JValue

/-- The collaborators' behaviour for one request. -/
structure ChatEnv where
  supabaseConfigured : Bool
  geminiApiKeyConfigured : Bool
  projectLookup : String → StoreLookupResult
  historyLookup : String → Except String (List ChatMessageRow)
  listModels : Except String (List ModelDesc)
  createModelOk : String → Bool
  generate : String → String → Except String String
  insertRows : List InsertRow → Except String Unit

abbrev ChatResult := Except HttpError ChatReply × List Effect

def joinComma : List String → String
  | [] => ""
  | [x] => x
  | x :: rest => x ++ ", " ++ joinComma rest

/-- Lines 800–822: persist both rows (failure swallowed), then return
the `\x7bmessage, operations\x7d` reply. -/
def chatPersistAndReply (req : ChatRequest) (env : ChatEnv)
    (assistantMessage operations : JValue) : ChatResult :=
  let rows : List InsertRow :=
    [⟨req.projectId, "user", .str req.message⟩,
     ⟨req.projectId, "assistant", assistantMessage⟩]
  match env.insertRows rows with
  | .ok _ => (.ok ⟨assistantMessage, operations⟩, [.storeInsert rows])
  | .error _ => (.ok ⟨assistantMessage, operations⟩, [.storeInsert rows])

/-- Lines 683–798: create the model, generate, clean the reply text
(fence and brace steps), reject an empty cleaned reply, run the parsing
stage, and persist.  A provider error is mapped to 429 on a rate/quota
marker, else 500; an `AttributeError` escaping the parsing stage is
caught by the outer handler as a 500. -/
def chatGenerate (req : ChatRequest) (env : ChatEnv)
    (model prompt : String) : ChatResult :=
  match env.generate model prompt with
  | .error msg =>
    if containsSub msg.toList "429".toList ||
       containsSub (pyLower msg.toList) "quota".toList ||
       containsSub (pyLower msg.toList) "rate limit".toList then
      if containsSub (pyLower msg.toList) "free_tier".toList then
        (.error ⟨429, "Gemini API free tier quota exceeded. Please wait a few minutes or upgrade your API plan. Free tier typically supports gemini-2.5-flash, gemini-2.0-flash, and gemini-flash-latest models."⟩,
         [.providerGenerate model])
      else
        (.error ⟨429, "Gemini API rate limit exceeded. Please wait a few minutes before trying again."⟩,
         [.providerGenerate model])
    else
      (.error ⟨500, "Gemini API error: " ++ msg⟩, [.providerGenerate model])
  | .ok text =>
    let replyText := braceStep (fenceStep (pyStrip text.toList))
    if replyText.isEmpty then
      (.error ⟨500, "Empty response from Gemini"⟩, [.providerGenerate model])
    else
      match parseStage replyText with
      | .raiseAttributeError =>
        (.error ⟨500, "Internal server error: AttributeError"⟩,
         [.providerGenerate model])
      | .ok m o =>
        let (res, tr) := chatPersistAndReply req env m o
        (res, .providerGenerate model :: tr)

/-- Lines 658–669: the direct-construction fallback over the preference
list, recording every attempted constructor call. -/
def directModelLoop (env : ChatEnv) : List String → Option String × List Effect
  | [] => (none, [])
  | n :: rest =>
    if env.createModelOk n then (some n, [.providerCreateModel n])
    else
      let (r, tr) := directModelLoop env rest
      (r, .providerCreateModel n :: tr)

/-- Lines 589–683: list the live catalog (listing failure is swallowed,
leaving an empty list), resolve a model name, fall back to direct
construction, and fail 503 when nothing resolves. -/
def chatModelPhase (req : ChatRequest) (env : ChatEnv)
    (prompt : String) : ChatResult :=
  let avail : List (String × String) :=
    match env.listModels with
    | .ok ms => availableFromCatalog ms
    | .error _ => []
  match resolveModelFromCatalog avail with
  | some m =>
    let (res, tr) := chatGenerate req env m.1 prompt
    (res, .providerListModels :: tr)
  | none =>
    let (direct, dtr) := directModelLoop env preferred_models
    match direct with
    | some n =>
      let (res, tr) := chatGenerate req env n prompt
      (res, .providerListModels :: (dtr ++ tr))
    | none =>
      let detail :=
        "No available Gemini models found. " ++
        (if avail.isEmpty then
          "Please check your API key and model availability."
        else
          "Available models: " ++ joinComma ((avail.take 5).map (fun p => p.1)))
      (.error ⟨503, detail⟩, .providerListModels :: dtr)

/-- Lines 501–520: best-effort history load (failure swallowed into an
empty history), history rendering, prompt assembly. -/
def chatHistoryPhase (req : ChatRequest) (env : ChatEnv)
    (diagramText : String) : ChatResult :=
  let rows :=
    match env.historyLookup req.projectId with
    | .ok rs => rs
    | .error _ => []
  let historyText := String.mk (renderHistory (rows.map (fun r => (r.role, r.content))))
  let prompt := buildPrompt diagramText historyText req.message
  let (res, tr) := chatModelPhase req env prompt
  (res, .storeSelectHistory req.projectId :: tr)

/-- Lines 456–499: the project lookup and its error mapping. -/
def chatProjectPhase (req : ChatRequest) (env : ChatEnv) : ChatResult :=
  let sel : Effect := .storeSelectProject req.projectId
  match env.projectLookup req.projectId with
  | .apiError msg code =>
    if containsSub (pyLower msg.toList) "invalid input syntax for type uuid".toList ||
       code == "22P02" then
      (.error ⟨400, "Invalid projectId format: " ++ req.projectId ++ ". Must be a valid UUID."⟩, [sel])
    else if containsSub (pyLower msg.toList) "not found".toList ||
            containsSub (pyLower msg.toList) "no rows".toList ||
            containsSub code.toList "PGRST116".toList then
      (.error ⟨404, "Project not found: " ++ req.projectId⟩, [sel])
    else
      (.error ⟨500, "Database error: " ++ msg⟩, [sel])
  | .otherError msg =>
    if containsSub (pyLower msg.toList) "invalid input syntax for type uuid".toList then
      (.error ⟨400, "Invalid projectId format: " ++ req.projectId ++ ". Must be a valid UUID."⟩, [sel])
    else
      (.error ⟨500, "Error loading project: " ++ msg⟩, [sel])
  | .success data =>
    match data with
    | none => (.error ⟨404, "Project not found in database"⟩, [sel])
    | some project =>
      if pyTruthy project = false then
        (.error ⟨404, "Project not found in database"⟩, [sel])
      else
        match project with
        | .obj members =>
          let diagram := (objGet members "diagram_json").getD (.obj [])
          let (res, tr) := chatHistoryPhase req env (pyRepr diagram)
          (res, sel :: tr)
        | _ =>
          -- `project.get` on a non-dict row: AttributeError, reported by
          -- the outer handler as a 500
          (.error ⟨500, "Internal server error: AttributeError"⟩, [sel])

/-- Lines 430–455 and the phases above: the whole `POST /chat` handler. -/
def chat (req : ChatRequest) (env : ChatEnv) : ChatResult :=
  if pyUuidValid req.projectId = false then
    (.error ⟨400, "Invalid projectId format. Expected UUID, got: " ++ req.projectId⟩, [])
  else if env.supabaseConfigured = false then
    (.error ⟨503, "Supabase is not configured. Please set SUPABASE_URL and SUPABASE_SERVICE_ROLE_KEY in backend/.env"⟩, [])
  else if env.geminiApiKeyConfigured = false then
    (.error ⟨503, "Gemini API key is not configured. Please set GOOGLE_GEMINI_API_KEY in backend/.env"⟩, [])
  else
    chatProjectPhase req env

/-! ## Shared concrete environment for witnesses -/

/-- A fully healthy collaborator environment: project present, history
empty, one usable model, well-formed model output, insert succeeding. -/
def sampleEnv : ChatEnv where
  supabaseConfigured := true
  geminiApiKeyConfigured := true
  projectLookup := fun _ => .success (some (.obj [("diagram_json", .obj [])]))
  historyLookup := fun _ => .ok []
  listModels := .ok [⟨"gemini-2.5-flash", ["generateContent"]⟩]
  createModelOk := fun _ => false
  generate := fun _ _ => .ok "\x7b\"message\":\"hi\",\"operations\":[]\x7d"
  insertRows := fun _ => .ok ()

/-! ## Claims -/

/-- C2: the claim asserts that the bare text
`[\x7b"op":"add_node","payload":\x7b\x7d\x7d]` is handled by the
legacy-array fallback, yielding message `I've updated your diagram.` and
the parsed array as operations.  False: the brace-extraction step
(lines 710–717) reduces the text to its embedded object
`\x7b"op":"add_node","payload":\x7b\x7d\x7d` (brace counts balance), the
strict decode then succeeds, and the result is the default
acknowledgement with an empty operations list. -/
theorem C2_counterexample :
    normalizeResponse "[\x7b\"op\":\"add_node\",\"payload\":\x7b\x7d\x7d]" ≠
      ParseOutcome.ok (.str legacyArrayMsg)
        (.arr [.obj [("op", .str "add_node"), ("payload", .obj [])]]) := by
  have h : normalizeResponse "[\x7b\"op\":\"add_node\",\"payload\":\x7b\x7d\x7d]" =
      ParseOutcome.ok (.str defaultAckMsg) (.arr []) := rfl
  rw [h]
  simp [defaultAckMsg, legacyArrayMsg]

/-- C2 (amended): normalizing the bare raw text
`[\x7b"op":"add_node","payload":\x7b\x7d\x7d]` produces
message = `I've processed your request.` and an empty operations list:
the brace-extraction step hands the strict decoder the embedded object,
so the legacy-array fallback is never reached. -/
theorem C2_theorem :
    normalizeResponse "[\x7b\"op\":\"add_node\",\"payload\":\x7b\x7d\x7d]" =
      ParseOutcome.ok (.str defaultAckMsg) (.arr []) := rfl

/-- The scan of lines 632–643 only returns members of the live list that
match the preference and survive the free-tier check. -/
theorem scanForPreferred_sound (p : String) (avail : List (String × String))
    (m : String × String) (h : scanForPreferred p avail = some m) :
    m ∈ avail ∧ isFreeTierName m.1 = true ∧ modelNameMatches m.1 p = true := by
  induction avail with
  | nil => simp [scanForPreferred] at h
  | cons a rest ih =>
    simp only [scanForPreferred] at h
    split at h
    · rename_i hc
      cases h
      simp only [Bool.and_eq_true] at hc
      exact ⟨List.mem_cons_self .., hc.2, hc.1⟩
    · rcases ih h with ⟨h1, h2, h3⟩
      exact ⟨List.mem_cons_of_mem _ h1, h2, h3⟩

/-- C5: on the live list `[gemini-2.0-flash-exp, gemini-2.5-flash,
gemini-1.5-pro]` (all with `generateContent`) and preferences
`[gemini-2.5-flash, gemini-2.0-flash]`, the resolver picks
`gemini-2.5-flash`; and in general a preference-phase result is a member
of the live list, carries no experimental/preview marker, and matches
some preference by equality, prefix or substring — preferences being
tried in order. -/
theorem C5_theorem :
    resolveModelFromCatalog (availableFromCatalog
      [⟨"gemini-2.0-flash-exp", ["generateContent"]⟩,
       ⟨"gemini-2.5-flash", ["generateContent"]⟩,
       ⟨"gemini-1.5-pro", ["generateContent"]⟩]) =
      some ("gemini-2.5-flash", "gemini-2.5-flash")
    ∧ resolveFromPreferred
        [("gemini-2.0-flash-exp", "gemini-2.0-flash-exp"),
         ("gemini-2.5-flash", "gemini-2.5-flash"),
         ("gemini-1.5-pro", "gemini-1.5-pro")]
        ["gemini-2.5-flash", "gemini-2.0-flash"] =
      some ("gemini-2.5-flash", "gemini-2.5-flash")
    ∧ ∀ (avail : List (String × String)) (prefs : List String)
        (m : String × String),
        resolveFromPreferred avail prefs = some m →
        m ∈ avail ∧ isFreeTierName m.1 = true ∧
          ∃ p ∈ prefs, modelNameMatches m.1 p = true := by
  refine ⟨by decide, by decide, ?_⟩
  intro avail prefs
  induction prefs with
  | nil => intro m h; simp [resolveFromPreferred] at h
  | cons p ps ih =>
    intro m h
    simp only [resolveFromPreferred] at h
    cases hs : scanForPreferred p avail with
    | some m2 =>
      rw [hs] at h
      cases h
      rcases scanForPreferred_sound p avail m hs with ⟨h1, h2, h3⟩
      exact ⟨h1, h2, p, by simp, h3⟩
    | none =>
      rw [hs] at h
      rcases ih m h with ⟨h1, h2, p2, hp2, h3⟩
      exact ⟨h1, h2, p2, by simp [hp2], h3⟩

/-- C5 witness: the soundness part applied to a concrete one-element
catalog. -/
theorem C5_witness :
    ("gemini-2.5-flash", "x") ∈ [("gemini-2.5-flash", "x")] ∧
    isFreeTierName "gemini-2.5-flash" = true ∧
    ∃ p ∈ ["gemini-2.5-flash"], modelNameMatches "gemini-2.5-flash" p = true :=
  C5_theorem.2.2 [("gemini-2.5-flash", "x")] ["gemini-2.5-flash"]
    ("gemini-2.5-flash", "x") rfl

/-- The 21-row table of the C4 check: messages with creation timestamps
0 to 20. -/
def c4SampleTable : List ChatMessageRow :=
  (List.range 21).map (fun i => ⟨"p1", "user", "m", i⟩)

/-- C4: the spec asks for the 20 *most-recent* messages presented oldest
first (timestamps 1..20 of the sample); the code's query
(`order(created_at, asc).limit(20)`, its own comment reading "Load
recent chat context") returns the *earliest* 20 (timestamps 0..19),
omitting the newest message. -/
theorem C4_code_eval :
    (chatHistoryQuery c4SampleTable "p1").map (fun r => r.created_at) =
      List.range 20
    ∧ (specHistoryQuery c4SampleTable "p1").map (fun r => r.created_at) =
      (List.range 21).drop 1
    ∧ chatHistoryQuery c4SampleTable "p1" ≠ specHistoryQuery c4SampleTable "p1" := by
  refine ⟨by decide, by decide, by decide⟩

/-- C7: a request whose project identifier fails `uuid.UUID` validation
is answered 400 with an empty effect trace — no store lookup, no model
listing, no model invocation. -/
theorem C7_theorem (req : ChatRequest) (env : ChatEnv)
    (h : pyUuidValid req.projectId = false) :
    chat req env =
      (.error ⟨400, "Invalid projectId format. Expected UUID, got: " ++ req.projectId⟩,
       []) := by
  simp [chat, h]

/-- C7 witness: the concrete request of the spec's test bullet. -/
theorem C7_witness :
    chat ⟨"not-a-uuid", "add a database"⟩ sampleEnv =
      (.error ⟨400, "Invalid projectId format. Expected UUID, got: " ++ "not-a-uuid"⟩,
       []) :=
  C7_theorem ⟨"not-a-uuid", "add a database"⟩ sampleEnv (by decide)

/-- C8: the `loading_project` failure mapping, given a well-formed
project identifier: store unconfigured → 503; store `APIError` matching
the malformed-identifier patterns → 400; matching the no-rows/not-found
patterns (and not the malformed-identifier ones, which are checked
first) → 404; any other `APIError` → 500; any other exception whose
message lacks the malformed-identifier pattern → 500. -/
theorem C8_theorem (req : ChatRequest) (env : ChatEnv)
    (hv : pyUuidValid req.projectId = true) :
    (env.supabaseConfigured = false →
      (chat req env).1 = .error ⟨503,
        "Supabase is not configured. Please set SUPABASE_URL and SUPABASE_SERVICE_ROLE_KEY in backend/.env"⟩)
    ∧ (∀ msg code, env.supabaseConfigured = true →
        env.geminiApiKeyConfigured = true →
        env.projectLookup req.projectId = .apiError msg code →
        (containsSub (pyLower msg.toList)
            "invalid input syntax for type uuid".toList || code == "22P02") = true →
        (chat req env).1 = .error ⟨400,
          "Invalid projectId format: " ++ req.projectId ++ ". Must be a valid UUID."⟩)
    ∧ (∀ msg code, env.supabaseConfigured = true →
        env.geminiApiKeyConfigured = true →
        env.projectLookup req.projectId = .apiError msg code →
        (containsSub (pyLower msg.toList)
            "invalid input syntax for type uuid".toList || code == "22P02") = false →
        (containsSub (pyLower msg.toList) "not found".toList ||
         containsSub (pyLower msg.toList) "no rows".toList ||
         containsSub code.toList "PGRST116".toList) = true →
        (chat req env).1 = .error ⟨404, "Project not found: " ++ req.projectId⟩)
    ∧ (∀ msg code, env.supabaseConfigured = true →
        env.geminiApiKeyConfigured = true →
        env.projectLookup req.projectId = .apiError msg code →
        (containsSub (pyLower msg.toList)
            "invalid input syntax for type uuid".toList || code == "22P02") = false →
        (containsSub (pyLower msg.toList) "not found".toList ||
         containsSub (pyLower msg.toList) "no rows".toList ||
         containsSub code.toList "PGRST116".toList) = false →
        (chat req env).1 = .error ⟨500, "Database error: " ++ msg⟩)
    ∧ (∀ msg, env.supabaseConfigured = true →
        env.geminiApiKeyConfigured = true →
        env.projectLookup req.projectId = .otherError msg →
        containsSub (pyLower msg.toList)
          "invalid input syntax for type uuid".toList = false →
        (chat req env).1 = .error ⟨500, "Error loading project: " ++ msg⟩) := by
  refine ⟨?_, ?_, ?_, ?_, ?_⟩
  · intro hs
    simp [chat, hv, hs]
  · intro msg code hs hg hlk hcond
    simp [chat, hv, hs, hg, chatProjectPhase, hlk]
    split
    · rfl
    · simp_all
  · intro msg code hs hg hlk hcond1 hcond2
    simp [chat, hv, hs, hg, chatProjectPhase, hlk]
    split
    · simp_all
    · split
      · rfl
      · simp_all
  · intro msg code hs hg hlk hcond1 hcond2
    simp [chat, hv, hs, hg, chatProjectPhase, hlk]
    split
    · simp_all
    · split
      · simp_all
      · rfl
  · intro msg hs hg hlk hcond
    simp [chat, hv, hs, hg, chatProjectPhase, hlk]
    split
    · simp_all
    · rfl

def c8EnvUnconfigured : ChatEnv :=
  { sampleEnv with supabaseConfigured := false }

def c8EnvBadUuid : ChatEnv :=
  { sampleEnv with projectLookup := (fun _ => .apiError "bad" "22P02") }

def c8EnvNoRows : ChatEnv :=
  { sampleEnv with projectLookup := (fun _ =>
      .apiError "JSON object requested, multiple (or no) rows returned" "PGRST116") }

def c8EnvOtherApi : ChatEnv :=
  { sampleEnv with projectLookup := (fun _ => .apiError "boom" "XX000") }

def c8EnvOtherExc : ChatEnv :=
  { sampleEnv with projectLookup := (fun _ => .otherError "connection reset") }

def c8Req : ChatRequest :=
  ⟨"123e4567-e89b-12d3-a456-426614174000", "hi"⟩

/-- C8 witness: all five mapping branches on concrete environments. -/
theorem C8_witness :
    (chat c8Req c8EnvUnconfigured).1 = .error ⟨503,
      "Supabase is not configured. Please set SUPABASE_URL and SUPABASE_SERVICE_ROLE_KEY in backend/.env"⟩
    ∧ (chat c8Req c8EnvBadUuid).1 = .error ⟨400,
      "Invalid projectId format: " ++ c8Req.projectId ++ ". Must be a valid UUID."⟩
    ∧ (chat c8Req c8EnvNoRows).1 = .error ⟨404,
      "Project not found: " ++ c8Req.projectId⟩
    ∧ (chat c8Req c8EnvOtherApi).1 = .error ⟨500, "Database error: " ++ "boom"⟩
    ∧ (chat c8Req c8EnvOtherExc).1 = .error ⟨500,
      "Error loading project: " ++ "connection reset"⟩ := by
  refine ⟨?_, ?_, ?_, ?_, ?_⟩
  · exact (C8_theorem c8Req c8EnvUnconfigured (by decide)).1 (by rfl)
  · exact (C8_theorem c8Req c8EnvBadUuid (by decide)).2.1 "bad" "22P02"
      (by rfl) (by rfl) (by rfl) (by decide)
  · exact (C8_theorem c8Req c8EnvNoRows (by decide)).2.2.1
      "JSON object requested, multiple (or no) rows returned" "PGRST116"
      (by rfl) (by rfl) (by rfl) (by decide) (by decide)
  · exact (C8_theorem c8Req c8EnvOtherApi (by decide)).2.2.2.1 "boom" "XX000"
      (by rfl) (by rfl) (by rfl) (by decide) (by decide)
  · exact (C8_theorem c8Req c8EnvOtherExc (by decide)).2.2.2.2 "connection reset"
      (by rfl) (by rfl) (by rfl) (by decide)

/-- C9: history loading and history persisting are best-effort.  A
failing history lookup produces *exactly* the behaviour (result and
effect trace) of an empty history; a failing insert leaves the returned
result unchanged. -/
theorem C9_theorem (req : ChatRequest) (env : ChatEnv) (e e2 : String) :
    chat req { env with historyLookup := (fun _ => .error e) } =
      chat req { env with historyLookup := (fun _ => .ok []) }
    ∧ (chat req { env with insertRows := (fun _ => .error e2) }).1 =
      (chat req { env with insertRows := (fun _ => .ok ()) }).1 :=
  ⟨rfl, rfl⟩

/-- The persist step always succeeds with the reply pair and records
exactly the two-row insert. -/
theorem chatPersistAndReply_spec (req : ChatRequest) (env : ChatEnv)
    (m o : JValue) :
    chatPersistAndReply req env m o =
      (.ok ⟨m, o⟩,
       [.storeInsert [⟨req.projectId, "user", .str req.message⟩,
                      ⟨req.projectId, "assistant", m⟩]]) := by
  unfold chatPersistAndReply
  dsimp only
  split <;> rfl

/-- Through the generation step, a successful result records the
user/assistant insert whose assistant content is the reply's message. -/
theorem chatGenerate_insert (req : ChatRequest) (env : ChatEnv)
    (model prompt : String) (r : ChatReply) (tr : List Effect)
    (h : chatGenerate req env model prompt = (.ok r, tr)) :
    Effect.storeInsert
      [⟨req.projectId, "user", .str req.message⟩,
       ⟨req.projectId, "assistant", r.message⟩] ∈ tr := by
  unfold chatGenerate at h
  cases hg : env.generate model prompt with
  | error msg =>
    rw [hg] at h
    repeat' split at h
    all_goals simp_all
  | ok text =>
    rw [hg] at h
    dsimp only at h
    split at h
    · simp_all
    · split at h
      · simp_all
      · rw [chatPersistAndReply_spec] at h
        dsimp only at h
        simp only [Prod.mk.injEq, Except.ok.injEq] at h
        obtain ⟨h1, h2⟩ := h
        subst h1
        subst h2
        simp

/-- Helper: the generation step behind one extra recorded effect. -/
theorem consEffect_generate_insert (req : ChatRequest) (env : ChatEnv)
    (model prompt : String) (eff : Effect) (r : ChatReply) (tr : List Effect)
    (h : (match chatGenerate req env model prompt with
          | (res, t) => (res, eff :: t)) = (.ok r, tr)) :
    Effect.storeInsert
      [⟨req.projectId, "user", .str req.message⟩,
       ⟨req.projectId, "assistant", r.message⟩] ∈ tr := by
  rcases hg : chatGenerate req env model prompt with ⟨res, t⟩
  rw [hg] at h
  dsimp only at h
  simp only [Prod.mk.injEq] at h
  obtain ⟨h1, h2⟩ := h
  subst h1
  subst h2
  simp only [List.mem_cons]
  right
  exact chatGenerate_insert req env model prompt r t hg

/-- Helper: the generation step behind one effect and a prefix trace. -/
theorem consAppEffect_generate_insert (req : ChatRequest) (env : ChatEnv)
    (model prompt : String) (eff : Effect) (pre : List Effect)
    (r : ChatReply) (tr : List Effect)
    (h : (match chatGenerate req env model prompt with
          | (res, t) => (res, eff :: (pre ++ t))) = (.ok r, tr)) :
    Effect.storeInsert
      [⟨req.projectId, "user", .str req.message⟩,
       ⟨req.projectId, "assistant", r.message⟩] ∈ tr := by
  rcases hg : chatGenerate req env model prompt with ⟨res, t⟩
  rw [hg] at h
  dsimp only at h
  simp only [Prod.mk.injEq] at h
  obtain ⟨h1, h2⟩ := h
  subst h1
  subst h2
  simp only [List.mem_cons, List.mem_append]
  right
  right
  exact chatGenerate_insert req env model prompt r t hg

/-- Through the model phase. -/
theorem chatModelPhase_insert (req : ChatRequest) (env : ChatEnv)
    (prompt : String) (r : ChatReply) (tr : List Effect)
    (h : chatModelPhase req env prompt = (.ok r, tr)) :
    Effect.storeInsert
      [⟨req.projectId, "user", .str req.message⟩,
       ⟨req.projectId, "assistant", r.message⟩] ∈ tr := by
  unfold chatModelPhase at h
  dsimp only at h
  split at h
  · exact consEffect_generate_insert req env _ prompt _ r tr h
  · rcases hd : directModelLoop env preferred_models with ⟨direct, dtr⟩
    rw [hd] at h
    dsimp only at h
    cases direct with
    | some n =>
      dsimp only at h
      exact consAppEffect_generate_insert req env n prompt _ dtr r tr h
    | none =>
      dsimp only at h
      simp at h
  
/-- Helper: the model phase behind one extra recorded effect. -/
theorem consEffect_modelPhase_insert (req : ChatRequest) (env : ChatEnv)
    (prompt : String) (eff : Effect) (r : ChatReply) (tr : List Effect)
    (h : (match chatModelPhase req env prompt with
          | (res, t) => (res, eff :: t)) = (.ok r, tr)) :
    Effect.storeInsert
      [⟨req.projectId, "user", .str req.message⟩,
       ⟨req.projectId, "assistant", r.message⟩] ∈ tr := by
  rcases hm : chatModelPhase req env prompt with ⟨res, t⟩
  rw [hm] at h
  dsimp only at h
  simp only [Prod.mk.injEq] at h
  obtain ⟨h1, h2⟩ := h
  subst h1
  subst h2
  simp only [List.mem_cons]
  right
  exact chatModelPhase_insert req env prompt r t hm

/-- Through the history phase. -/
theorem chatHistoryPhase_insert (req : ChatRequest) (env : ChatEnv)
    (diagramText : String) (r : ChatReply) (tr : List Effect)
    (h : chatHistoryPhase req env diagramText = (.ok r, tr)) :
    Effect.storeInsert
      [⟨req.projectId, "user", .str req.message⟩,
       ⟨req.projectId, "assistant", r.message⟩] ∈ tr := by
  unfold chatHistoryPhase at h
  dsimp only at h
  exact consEffect_modelPhase_insert req env _ _ r tr h

/-- Helper: the history phase behind one extra recorded effect. -/
theorem consEffect_historyPhase_insert (req : ChatRequest) (env : ChatEnv)
    (diagramText : String) (eff : Effect) (r : ChatReply) (tr : List Effect)
    (h : (match chatHistoryPhase req env diagramText with
          | (res, t) => (res, eff :: t)) = (.ok r, tr)) :
    Effect.storeInsert
      [⟨req.projectId, "user", .str req.message⟩,
       ⟨req.projectId, "assistant", r.message⟩] ∈ tr := by
  rcases hh : chatHistoryPhase req env diagramText with ⟨res, t⟩
  rw [hh] at h
  dsimp only at h
  simp only [Prod.mk.injEq] at h
  obtain ⟨h1, h2⟩ := h
  subst h1
  subst h2
  simp only [List.mem_cons]
  right
  exact chatHistoryPhase_insert req env diagramText r t hh

/-- Through the project phase. -/
theorem chatProjectPhase_insert (req : ChatRequest) (env : ChatEnv)
    (r : ChatReply) (tr : List Effect)
    (h : chatProjectPhase req env = (.ok r, tr)) :
    Effect.storeInsert
      [⟨req.projectId, "user", .str req.message⟩,
       ⟨req.projectId, "assistant", r.message⟩] ∈ tr := by
  unfold chatProjectPhase at h
  dsimp only at h
  split at h
  · split at h <;> (try split at h) <;> simp_all
  · split at h <;> simp_all
  · split at h
    · simp_all
    · split at h
      · simp_all
      · split at h
        · exact consEffect_historyPhase_insert req env _ _ r tr h
        · simp_all

/-- C10: on every successful chat request the two rows handed to the
history insert are exactly the request's message under the `user` role
and the returned reply's message under the `assistant` role — the
persisted transcript and the HTTP reply cannot diverge. -/
theorem C10_theorem (req : ChatRequest) (env : ChatEnv)
    (r : ChatReply) (tr : List Effect)
    (h : chat req env = (.ok r, tr)) :
    Effect.storeInsert
      [⟨req.projectId, "user", .str req.message⟩,
       ⟨req.projectId, "assistant", r.message⟩] ∈ tr := by
  unfold chat at h
  split at h
  · simp_all
  · split at h
    · simp_all
    · split at h
      · simp_all
      · exact chatProjectPhase_insert req env r tr h

/-- C10 witness: a fully successful concrete run records the insert of
the user message and the returned assistant message. -/
theorem C10_witness :
    Effect.storeInsert
      [⟨c8Req.projectId, "user", .str c8Req.message⟩,
       ⟨c8Req.projectId, "assistant", JValue.str "hi"⟩] ∈ (chat c8Req sampleEnv).2 :=
  C10_theorem c8Req sampleEnv ⟨.str "hi", .arr []⟩ (chat c8Req sampleEnv).2 (by rfl)

set_option maxRecDepth 100000 in
/-- C3: the claim puts the response-format contract, the heuristics and
an exhaustively enumerated 36-entry node-type catalog *before* the
serialized diagram and history.  False on both counts: in the assembled
prompt the `Current diagram JSON:` header (index 180) precedes the
`You MUST respond with a JSON object` contract (index 436), and the
catalog entry `admin-panel` (present in `AVAILABLE_NODE_TYPES`) occurs
nowhere in the prompt. -/
theorem C3_counterexample :
    firstSubIdx (buildPrompt "D" "No previous messages." "add a cache").toList
        "Current diagram JSON:".toList = some 180
    ∧ firstSubIdx (buildPrompt "D" "No previous messages." "add a cache").toList
        "You MUST respond with a JSON object".toList = some 436
    ∧ "admin-panel" ∈ AVAILABLE_NODE_TYPE_IDS
    ∧ containsSub (buildPrompt "D" "No previous messages." "add a cache").toList
        "admin-panel".toList = false := by
  refine ⟨by decide, by decide, by decide, ?_⟩
  have h0 : (buildPrompt "D" "No previous messages." "add a cache").toList =
      (((((sysInstrSeg1.toList ++ "D".toList) ++ sysInstrSeg2.toList) ++
          "No previous messages.".toList) ++
        (((((sysInstrInstructions.toList ++ sysInstrContract.toList) ++
            sysInstrGrid.toList) ++ sysInstrOperations.toList) ++
          sysInstrNodeTypes.toList) ++ sysInstrCritical.toList)) ++
        "\nUSER:\n".toList) ++ "add a cache".toList := rfl
  rw [h0]
  apply containsSub_append_false _ _ _ 4678 (by decide) ?hl1 (by decide)
  case hl1 =>
    apply containsSub_append_false _ _ _ 4671 (by decide) ?hl2 (by decide)
    case hl2 =>
      rw [← List.append_assoc]
      apply containsSub_append_false _ _ _ 2606 (by decide) (by decide) (by decide)

set_option maxRecDepth 100000 in
/-- C3 (amended): the prompt is composed as persona → current diagram →
recent chat → numbered instructions → JSON response contract →
grid-positioning heuristics → operation-shape catalog → a single line
naming only twelve node-type ids → hierarchical-positioning and
connection rules → `USER:` → the literal user message; the 36-entry
`AVAILABLE_NODE_TYPES` catalog is never interpolated (its entry
`admin-panel` appears in no constituent). -/
theorem C3_theorem :
    (∀ d h m : String, buildPrompt d h m =
      sysInstrSeg1 ++ d ++ sysInstrSeg2 ++ h ++
      (sysInstrInstructions ++ sysInstrContract ++ sysInstrGrid ++
       sysInstrOperations ++ sysInstrNodeTypes ++ sysInstrCritical) ++
      "\nUSER:\n" ++ m)
    ∧ firstSubIdx sysInstrSeg1.toList "You are ArchCoach".toList = some 1
    ∧ firstSubIdx sysInstrSeg1.toList "Current diagram JSON:".toList = some 180
    ∧ firstSubIdx sysInstrSeg2.toList "Recent chat:".toList = some 2
    ∧ firstSubIdx sysInstrInstructions.toList
        "When the user sends an instruction".toList = some 2
    ∧ firstSubIdx sysInstrContract.toList
        "You MUST respond with a JSON object".toList = some 0
    ∧ firstSubIdx sysInstrGrid.toList
        "IMPORTANT: When positioning nodes".toList = some 0
    ∧ firstSubIdx sysInstrOperations.toList
        "Available operations:".toList = some 0
    ∧ sysInstrNodeTypes =
        "Available node types: web-server, database, worker, cache, queue, " ++
        "storage, third-party-api, compute-node, load-balancer, " ++
        "message-broker, cdn, monitoring\n\n"
    ∧ firstSubIdx sysInstrCritical.toList
        "CRITICAL RULES FOR POSITIONING NODES".toList = some 0
    ∧ containsSub sysInstrSeg1.toList "admin-panel".toList = false
    ∧ containsSub sysInstrSeg2.toList "admin-panel".toList = false
    ∧ containsSub sysInstrInstructions.toList "admin-panel".toList = false
    ∧ containsSub sysInstrContract.toList "admin-panel".toList = false
    ∧ containsSub sysInstrGrid.toList "admin-panel".toList = false
    ∧ containsSub sysInstrOperations.toList "admin-panel".toList = false
    ∧ containsSub sysInstrNodeTypes.toList "admin-panel".toList = false
    ∧ containsSub sysInstrCritical.toList "admin-panel".toList = false := by
  constructor
  · exact fun d h m => rfl
  · decide

/-! ## C1: totality of the parsing stage -/

/-- `message` values that the parsing stage copies verbatim out of a
decoded object: either the strictly decoded object itself, or one of the
regex-extracted brace candidates. -/
def suppliedByObject (l : List Char) (m : JValue) : Prop :=
  (∃ mem, pyJsonLoadsL l = .ok (.obj mem) ∧ objGet mem "message" = some m) ∨
  (∃ c ∈ findallBrace l, ∃ mem,
    pyJsonLoadsL c = .ok (.obj mem) ∧ objGet mem "message" = some m)

theorem coerceOps_isArr (v : JValue) : ∃ xs, coerceOps v = .arr xs := by
  cases v <;> simp [coerceOps]

theorem apologyMsg_head (e : String) :
    ∃ t, (apologyMsg e).data = 'I' :: t :=
  ⟨_, rfl⟩

theorem apologyMsg_ne_empty (e : String) : apologyMsg e ≠ "" := by
  intro h
  obtain ⟨t, ht⟩ := apologyMsg_head e
  rw [h] at ht
  simp at ht

/-- Soundness of the candidate loop: an accepted pair has a list for
operations, and a message that is either the default acknowledgement or
copied from a candidate's decoded object. -/
theorem candLoop_spec :
    ∀ (cands : List (List Char)) (m o : JValue),
      candLoop cands = some (m, o) →
      (∃ xs, o = .arr xs) ∧
      (m = .str defaultAckMsg ∨
        ∃ c ∈ cands, ∃ mem,
          pyJsonLoadsL c = .ok (.obj mem) ∧ objGet mem "message" = some m) := by
  intro cands
  induction cands with
  | nil => intro m o h; simp [candLoop] at h
  | cons c rest ih =>
    intro m o h
    unfold candLoop at h
    split at h
    · rename_i mem heq
      split at h
      · simp only [Option.some.injEq, Prod.mk.injEq] at h
        obtain ⟨h1, h2⟩ := h
        refine ⟨h2 ▸ coerceOps_isArr _, ?_⟩
        cases hg : objGet mem "message" with
        | none => left; rw [← h1]; simp [hg]
        | some x =>
          right
          exact ⟨c, by simp, mem, heq, by rw [hg]; simp [← h1, hg]⟩
      · rcases ih m o h with ⟨ho, hm⟩
        refine ⟨ho, ?_⟩
        rcases hm with h | ⟨c2, hc2, mem2, hd, hg⟩
        · exact Or.inl h
        · exact Or.inr ⟨c2, by simp [hc2], mem2, hd, hg⟩
    · rcases ih m o h with ⟨ho, hm⟩
      refine ⟨ho, ?_⟩
      rcases hm with h | ⟨c2, hc2, mem2, hd, hg⟩
      · exact Or.inl h
      · exact Or.inr ⟨c2, by simp [hc2], mem2, hd, hg⟩
    · rcases ih m o h with ⟨ho, hm⟩
      refine ⟨ho, ?_⟩
      rcases hm with h | ⟨c2, hc2, mem2, hd, hg⟩
      · exact Or.inl h
      · exact Or.inr ⟨c2, by simp [hc2], mem2, hd, hg⟩

/-- The fallback chain never raises and always returns a list of
operations together with a fixed non-empty message or a message copied
from a decoded candidate object. -/
theorem parseFallback_spec (l : List Char) (e : String) :
    (parseFallback l e ≠ .raiseAttributeError) ∧
    ∀ m o, parseFallback l e = .ok m o →
      (∃ xs, o = .arr xs) ∧
      ((∃ t, m = .str t ∧ t ≠ "") ∨
        ∃ c ∈ findallBrace l, ∃ mem,
          pyJsonLoadsL c = .ok (.obj mem) ∧ objGet mem "message" = some m) := by
  unfold parseFallback
  dsimp only
  cases hc : candLoop (sortCandidates (findallBrace l)) with
  | some p =>
    obtain ⟨pm, po⟩ := p
    dsimp only
    refine ⟨by simp, ?_⟩
    intro m o h
    simp only [ParseOutcome.ok.injEq] at h
    obtain ⟨h1, h2⟩ := h
    rcases candLoop_spec _ pm po hc with ⟨ho, hm⟩
    refine ⟨h2 ▸ ho, ?_⟩
    rcases hm with hdef | ⟨c, hcm, mem, hd, hg⟩
    · exact Or.inl ⟨defaultAckMsg, by rw [← h1, hdef], by decide⟩
    · right
      refine ⟨c, ?_, mem, hd, by rw [hg, h1]⟩
      rw [← mem_stableSortBy (fun y x => y.length ≥ x.length) (findallBrace l) c]
      exact hcm
  | none =>
    dsimp only
    cases hp : pyJsonLoadsL l with
    | ok v =>
      cases v with
      | arr xs =>
        refine ⟨by simp, ?_⟩
        intro m o h
        simp only [ParseOutcome.ok.injEq] at h
        exact ⟨⟨xs, h.2.symm⟩, Or.inl ⟨legacyArrayMsg, h.1.symm, by decide⟩⟩
      | null =>
        refine ⟨by simp, ?_⟩
        intro m o h
        simp only [ParseOutcome.ok.injEq] at h
        exact ⟨⟨[], h.2.symm⟩, Or.inl ⟨unparseableFormatMsg, h.1.symm, by decide⟩⟩
      | bool b =>
        refine ⟨by simp, ?_⟩
        intro m o h
        simp only [ParseOutcome.ok.injEq] at h
        exact ⟨⟨[], h.2.symm⟩, Or.inl ⟨unparseableFormatMsg, h.1.symm, by decide⟩⟩
      | num x =>
        refine ⟨by simp, ?_⟩
        intro m o h
        simp only [ParseOutcome.ok.injEq] at h
        exact ⟨⟨[], h.2.symm⟩, Or.inl ⟨unparseableFormatMsg, h.1.symm, by decide⟩⟩
      | str x =>
        refine ⟨by simp, ?_⟩
        intro m o h
        simp only [ParseOutcome.ok.injEq] at h
        exact ⟨⟨[], h.2.symm⟩, Or.inl ⟨unparseableFormatMsg, h.1.symm, by decide⟩⟩
      | obj mem =>
        refine ⟨by simp, ?_⟩
        intro m o h
        simp only [ParseOutcome.ok.injEq] at h
        exact ⟨⟨[], h.2.symm⟩, Or.inl ⟨unparseableFormatMsg, h.1.symm, by decide⟩⟩
    | error e2 =>
      refine ⟨by simp, ?_⟩
      intro m o h
      simp only [ParseOutcome.ok.injEq] at h
      exact ⟨⟨[], h.2.symm⟩, Or.inl ⟨apologyMsg e, h.1.symm, apologyMsg_ne_empty e⟩⟩

/-- C1: the claim asserts the parsing stage never raises and always
yields a non-empty string message.  False: a raw text that strictly
decodes to a non-object JSON value (here the array `[1, 2]`) makes
`response_data.get` raise `AttributeError`, which the
`except json.JSONDecodeError` handler does not catch; and an object
supplying an empty `message` (here `\x7b"message":""\x7d`) is returned
verbatim as an empty message. -/
theorem C1_counterexample :
    parseStage "[1, 2]".toList = ParseOutcome.raiseAttributeError
    ∧ parseStage "\x7b\"message\":\"\"\x7d".toList =
        ParseOutcome.ok (.str "") (.arr []) := by
  exact ⟨by rfl, by rfl⟩

/-- C1 (amended): for every raw text reaching the parsing stage, the
stage raises (an `AttributeError` escaping the
`except json.JSONDecodeError` handler) exactly when the strict JSON
decode succeeds with a non-object value; whenever it returns, the
operations component is a list (possibly empty), and the message is
either a fixed non-empty string or a value copied verbatim from a
decoded object's `message` entry (which may be empty or not a string). -/
theorem C1_theorem (l : List Char) :
    ((parseStage l = .raiseAttributeError) ↔
      ∃ v, pyJsonLoadsL l = .ok v ∧ v.isObj = false)
    ∧ (∀ m o, parseStage l = .ok m o → ∃ xs, o = .arr xs)
    ∧ (∀ m o, parseStage l = .ok m o →
        (∃ t, m = .str t ∧ t ≠ "") ∨ suppliedByObject l m) := by
  unfold parseStage
  cases hp : pyJsonLoadsL l with
  | ok v =>
    cases v with
    | obj mem =>
      refine ⟨⟨fun h => by simp at h, ?_⟩, ?_, ?_⟩
      · rintro ⟨v2, hv2, hobj⟩
        simp only [Except.ok.injEq] at hv2
        rw [← hv2] at hobj
        simp [JValue.isObj] at hobj
      · intro m o h
        simp only [ParseOutcome.ok.injEq] at h
        exact h.2 ▸ coerceOps_isArr _
      · intro m o h
        simp only [ParseOutcome.ok.injEq] at h
        obtain ⟨h1, _⟩ := h
        cases hg : objGet mem "message" with
        | none => exact Or.inl ⟨defaultAckMsg, by rw [← h1]; simp [hg], by decide⟩
        | some x =>
          right
          left
          exact ⟨mem, hp, by rw [hg]; rw [← h1]; simp [hg]⟩
    | null =>
      refine ⟨⟨fun _ => ⟨.null, rfl, rfl⟩, fun _ => rfl⟩, ?_, ?_⟩ <;>
        (intro m o h; simp at h)
    | bool b =>
      refine ⟨⟨fun _ => ⟨.bool b, rfl, rfl⟩, fun _ => rfl⟩, ?_, ?_⟩ <;>
        (intro m o h; simp at h)
    | num x =>
      refine ⟨⟨fun _ => ⟨.num x, rfl, rfl⟩, fun _ => rfl⟩, ?_, ?_⟩ <;>
        (intro m o h; simp at h)
    | str x =>
      refine ⟨⟨fun _ => ⟨.str x, rfl, rfl⟩, fun _ => rfl⟩, ?_, ?_⟩ <;>
        (intro m o h; simp at h)
    | arr xs =>
      refine ⟨⟨fun _ => ⟨.arr xs, rfl, rfl⟩, fun _ => rfl⟩, ?_, ?_⟩ <;>
        (intro m o h; simp at h)
  | error e =>
    rcases parseFallback_spec l e with ⟨hnr, hok⟩
    refine ⟨⟨fun h => absurd h hnr, ?_⟩, ?_, ?_⟩
    · rintro ⟨v2, hv2, _⟩
      simp at hv2
    · intro m o h
      exact (hok m o h).1
    · intro m o h
      rcases (hok m o h).2 with hfix | ⟨c, hc, mem, hd, hg⟩
      · exact Or.inl hfix
      · exact Or.inr (Or.inr ⟨c, hc, mem, hd, hg⟩)

/-- C1 witness: the stage on the empty object returns the default
acknowledgement and an empty operations list. -/
theorem C1_witness :
    ∃ xs, (JValue.arr ([] : List JValue)) = JValue.arr xs :=
  (C1_theorem ("\x7b\x7d".toList)).2.1 (.str defaultAckMsg) (.arr []) (by rfl)

/-! ## C6: fence stripping -/

theorem isPrefixL_extend (n : List Char) :
    ∀ (a b : List Char), isPrefixL n a = true → isPrefixL n (a ++ b) = true := by
  induction n with
  | nil => intro a b _; simp [isPrefixL]
  | cons x n' ih =>
    intro a b h
    cases a with
    | nil => simp [isPrefixL] at h
    | cons y a' =>
      simp only [isPrefixL, Bool.and_eq_true] at h
      simp only [List.cons_append, isPrefixL, Bool.and_eq_true]
      exact ⟨h.1, ih a' b h.2⟩

theorem containsSub_append_left (a b n : List Char)
    (h : containsSub a n = true) : containsSub (a ++ b) n = true := by
  induction a with
  | nil =>
    cases n with
    | nil =>
      cases b with
      | nil => simp [containsSub, isPrefixL]
      | cons c t => simp [containsSub, isPrefixL]
    | cons x n' => simp [containsSub, isPrefixL] at h
  | cons c a' ih =>
    simp only [containsSub, Bool.or_eq_true] at h
    rcases h with h | h
    · simp only [List.cons_append, containsSub, Bool.or_eq_true]
      left
      have := isPrefixL_extend n (c :: a') b h
      simpa using this
    · simp only [List.cons_append, containsSub, Bool.or_eq_true]
      exact Or.inr (ih h)

theorem containsSub_append_false_left (a b n : List Char)
    (h : containsSub (a ++ b) n = false) : containsSub a n = false := by
  cases hc : containsSub a n with
  | false => rfl
  | true => rw [containsSub_append_left a b n hc] at h; exact h.symm ▸ rfl

theorem containsSub_dropWhile_false (p : Char → Bool) (n : List Char) :
    ∀ l, containsSub l n = false → containsSub (l.dropWhile p) n = false := by
  intro l
  induction l with
  | nil => intro h; simpa using h
  | cons c l' ih =>
    intro h
    obtain ⟨_, htail⟩ := containsSub_cons_false c l' n h
    rw [List.dropWhile_cons]
    split
    · exact ih htail
    · exact h

theorem containsSub_pyStrip_false (n : List Char) (l : List Char)
    (h : containsSub l n = false) : containsSub (pyStrip l) n = false := by
  unfold pyStrip
  have h1 : containsSub (l.dropWhile isPySpace) n = false :=
    containsSub_dropWhile_false isPySpace n l h
  set d := l.dropWhile isPySpace with hd
  have h2 : d = (d.reverse.dropWhile isPySpace).reverse ++
      (d.reverse.takeWhile isPySpace).reverse := by
    conv_lhs => rw [← List.reverse_reverse d,
      ← List.takeWhile_append_dropWhile isPySpace d.reverse]
    rw [List.reverse_append]
  rw [h2] at h1
  exact containsSub_append_false_left _ _ n h1

theorem isPrefixL_containsSub (n l : List Char) (hn : n ≠ [])
    (h : isPrefixL n l = true) : containsSub l n = true := by
  cases l with
  | nil => cases n with
    | nil => exact absurd rfl hn
    | cons x n' => simp [isPrefixL] at h
  | cons c t =>
    simp only [containsSub, Bool.or_eq_true]
    exact Or.inl h

theorem fenceMatchAt_none (l : List Char)
    (h : isPrefixL ['`', '`', '`'] l = false) : fenceMatchAt l = none := by
  unfold fenceMatchAt
  rw [h]
  rfl

theorem fenceSearch_none :
    ∀ l, containsSub l ['`', '`', '`'] = false → fenceSearch l = none := by
  intro l
  induction l with
  | nil => intro _; rfl
  | cons c l' ih =>
    intro h
    obtain ⟨hpre, htail⟩ := containsSub_cons_false c l' _ h
    unfold fenceSearch
    rw [fenceMatchAt_none _ hpre]
    exact ih htail

theorem triple_prefix_junction (c : Char) (l' R : List Char)
    (h : isPrefixL ['`', '`', '`'] (c :: l') = false) :
    isPrefixL ['`', '`', '`'] (c :: (l' ++ '\n' :: R)) = false := by
  cases l' with
  | nil =>
    simp only [List.nil_append, isPrefixL]
    simp
  | cons x l'' =>
    cases l'' with
    | nil =>
      simp only [List.cons_append, List.nil_append, isPrefixL]
      simp
    | cons y l3 =>
      simpa only [List.cons_append, isPrefixL] using h

theorem findTripleSplit_junction (R : List Char) :
    ∀ l, containsSub l ['`', '`', '`'] = false →
      findTripleSplit (l ++ '\n' :: '`' :: '`' :: '`' :: R) =
        some (l ++ ['\n'], R) := by
  intro l
  induction l with
  | nil =>
    intro _
    unfold findTripleSplit
    simp only [List.nil_append]
    rw [if_neg (by simp [isPrefixL])]
    unfold findTripleSplit
    rw [if_pos (by simp [isPrefixL])]
    rfl
  | cons c l' ih =>
    intro h
    obtain ⟨hpre, htail⟩ := containsSub_cons_false c l' _ h
    rw [List.cons_append]
    unfold findTripleSplit
    rw [if_neg (by simpa using triple_prefix_junction c l' ('`' :: '`' :: '`' :: R) hpre)]
    rw [ih htail]
    rfl

theorem pyStrip_cons_ws (c : Char) (l : List Char) (hc : isPySpace c = true) :
    pyStrip (c :: l) = pyStrip l := by
  unfold pyStrip
  rw [List.dropWhile_cons, if_pos hc]

theorem pyStrip_dropWhile_nl :
    ∀ l : List Char, pyStrip (l.dropWhile isPySpace ++ ['\n']) = pyStrip l := by
  intro l
  induction l with
  | nil => rfl
  | cons c l' ih =>
    rw [List.dropWhile_cons]
    by_cases hc : isPySpace c = true
    · rw [if_pos hc, pyStrip_cons_ws c l' hc]
      exact ih
    · rw [if_neg hc]
      have hcf : isPySpace c = false := by
        cases hcv : isPySpace c with
        | false => rfl
        | true => exact absurd hcv hc
      unfold pyStrip
      rw [List.cons_append, List.dropWhile_cons, if_neg hc,
        List.dropWhile_cons, if_neg hc]
      have hrev : ((c :: (l' ++ ['\n'])).reverse) = '\n' :: (c :: l').reverse := by
        rw [show (c :: (l' ++ ['\n'])) = (c :: l') ++ ['\n'] from by simp,
          List.reverse_append]
        rfl
      rw [hrev, List.dropWhile_cons, if_pos (by decide)]

/-- C6: the claim asserts fence-stripping equivalence for *every* JSON
object body.  False when the body itself contains a triple backtick
(legal inside a JSON string): for
`\x7b"message":"``` 5 ```"\x7d` the bare text's fence regex fires on the
*interior* backticks (reducing the text to `5`, whose strict decode is a
non-object, so the stage raises `AttributeError`), while the fenced text
is truncated at the interior fence and ends in the apology fallback. -/
theorem C6_counterexample :
    pyJsonLoadsL "\x7b\"message\":\"``` 5 ```\"\x7d".toList =
      .ok (.obj [("message", .str "``` 5 ```")])
    ∧ parseOutcomeIsRaise
        (normalizeResponse ("```json\n" ++ "\x7b\"message\":\"``` 5 ```\"\x7d" ++ "\n```")) = false
    ∧ parseOutcomeIsRaise
        (normalizeResponse "\x7b\"message\":\"``` 5 ```\"\x7d") = true
    ∧ normalizeResponse ("```json\n" ++ "\x7b\"message\":\"``` 5 ```\"\x7d" ++ "\n```") ≠
      normalizeResponse "\x7b\"message\":\"``` 5 ```\"\x7d" := by
  refine ⟨by rfl, by rfl, by rfl, ?_⟩
  intro h
  have h1 : parseOutcomeIsRaise
      (normalizeResponse ("```json\n" ++ "\x7b\"message\":\"``` 5 ```\"\x7d" ++ "\n```")) = false := by rfl
  rw [h] at h1
  have h2 : parseOutcomeIsRaise
      (normalizeResponse "\x7b\"message\":\"``` 5 ```\"\x7d") = true := by rfl
  rw [h1] at h2
  exact Bool.noConfusion h2

/-- C6 (amended): for every JSON object body containing no triple
backtick, normalizing the fenced text and normalizing the bare text
yield identical structured results. -/
theorem C6_theorem (b : String)
    (_hobj : ∃ mem, pyJsonLoadsL b.toList = .ok (.obj mem))
    (hb : containsSub b.toList "```".toList = false) :
    normalizeResponse ("```json\n" ++ b ++ "\n```") = normalizeResponse b := by
  have hb' : containsSub b.toList ['`', '`', '`'] = false := hb
  have hwrapL : ("```json\n" ++ b ++ "\n```").toList =
      '`' :: '`' :: '`' :: 'j' :: 's' :: 'o' :: 'n' :: '\n' ::
        (b.toList ++ ['\n', '`', '`', '`']) := by
    show ("```json\n".toList ++ b.toList) ++ "\n```".toList = _
    rw [List.append_assoc]
    rfl
  have hrev : ('`' :: '`' :: '`' :: 'j' :: 's' :: 'o' :: 'n' :: '\n' ::
      (b.toList ++ ['\n', '`', '`', '`'])).reverse =
      '`' :: '`' :: '`' :: '\n' :: (b.toList.reverse ++
        ['\n', 'n', 'o', 's', 'j', '`', '`', '`']) := by
    rw [show ('`' :: '`' :: '`' :: 'j' :: 's' :: 'o' :: 'n' :: '\n' ::
        (b.toList ++ ['\n', '`', '`', '`'])) =
        (['`', '`', '`', 'j', 's', 'o', 'n', '\n'] ++ b.toList) ++
          ['\n', '`', '`', '`'] from by simp]
    rw [List.reverse_append, List.reverse_append]
    rfl
  have hstrip : pyStrip ('`' :: '`' :: '`' :: 'j' :: 's' :: 'o' :: 'n' :: '\n' ::
      (b.toList ++ ['\n', '`', '`', '`'])) =
      '`' :: '`' :: '`' :: 'j' :: 's' :: 'o' :: 'n' :: '\n' ::
        (b.toList ++ ['\n', '`', '`', '`']) := by
    unfold pyStrip
    rw [List.dropWhile_cons, if_neg (by decide)]
    rw [hrev, List.dropWhile_cons, if_neg (by decide), ← hrev,
      List.reverse_reverse]
  have hfence : fenceStep ('`' :: '`' :: '`' :: 'j' :: 's' :: 'o' :: 'n' :: '\n' ::
      (b.toList ++ ['\n', '`', '`', '`'])) = pyStrip b.toList := by
    cases hdw : b.toList.dropWhile isPySpace with
    | nil =>
      have hm2 : fenceMatchAt ('`' :: '`' :: '`' :: 'j' :: 's' :: 'o' :: 'n' :: '\n' ::
          (b.toList ++ ['\n', '`', '`', '`'])) = some [] := by
        unfold fenceMatchAt
        rw [if_pos (by simp [isPrefixL])]
        dsimp only
        rw [if_pos (by simp [isPrefixL])]
        show (findTripleSplit (List.dropWhile isPySpace
          ('\n' :: (b.toList ++ ['\n', '`', '`', '`'])))).map (fun p => p.1) = _
        rw [List.dropWhile_cons, if_pos (by decide), List.dropWhile_append, hdw]
        rw [if_pos (by rfl)]
        rfl
      have hs2 : fenceSearch ('`' :: '`' :: '`' :: 'j' :: 's' :: 'o' :: 'n' :: '\n' ::
          (b.toList ++ ['\n', '`', '`', '`'])) = some [] := by
        unfold fenceSearch
        rw [hm2]
      unfold fenceStep
      rw [hs2]
      unfold pyStrip
      rw [hdw]
      rfl
    | cons d0 ds =>
      have hcontains : containsSub (d0 :: ds) ['`', '`', '`'] = false := by
        rw [← hdw]
        exact containsSub_dropWhile_false isPySpace _ b.toList hb'
      have hm2 : fenceMatchAt ('`' :: '`' :: '`' :: 'j' :: 's' :: 'o' :: 'n' :: '\n' ::
          (b.toList ++ ['\n', '`', '`', '`'])) =
          some ((d0 :: ds) ++ ['\n']) := by
        unfold fenceMatchAt
        rw [if_pos (by simp [isPrefixL])]
        dsimp only
        rw [if_pos (by simp [isPrefixL])]
        show (findTripleSplit (List.dropWhile isPySpace
          ('\n' :: (b.toList ++ ['\n', '`', '`', '`'])))).map (fun p => p.1) = _
        rw [List.dropWhile_cons, if_pos (by decide), List.dropWhile_append, hdw]
        rw [if_neg (by simp)]
        rw [show (['\n', '`', '`', '`'] : List Char) =
          '\n' :: '`' :: '`' :: '`' :: [] from rfl]
        rw [findTripleSplit_junction [] (d0 :: ds) hcontains]
        rfl
      have hs2 : fenceSearch ('`' :: '`' :: '`' :: 'j' :: 's' :: 'o' :: 'n' :: '\n' ::
          (b.toList ++ ['\n', '`', '`', '`'])) = some ((d0 :: ds) ++ ['\n']) := by
        unfold fenceSearch
        rw [hm2]
      unfold fenceStep
      rw [hs2]
      rw [show (d0 :: ds) = b.toList.dropWhile isPySpace from hdw.symm]
      exact pyStrip_dropWhile_nl b.toList
  have hstripb : containsSub (pyStrip b.toList) ['`', '`', '`'] = false :=
    containsSub_pyStrip_false _ _ hb'
  have hfsnone : fenceSearch (pyStrip b.toList) = none :=
    fenceSearch_none _ hstripb
  have hpre : isPrefixL ['`', '`', '`'] (pyStrip b.toList) = false := by
    cases hp : isPrefixL ['`', '`', '`'] (pyStrip b.toList) with
    | false => rfl
    | true =>
      rw [isPrefixL_containsSub _ _ (by simp) hp] at hstripb
      exact Bool.noConfusion hstripb
  have hrhs : fenceStep (pyStrip b.toList) = pyStrip b.toList := by
    unfold fenceStep
    rw [hfsnone]
    rw [if_neg (by simpa using hpre)]
  unfold normalizeResponse
  rw [hwrapL, hstrip, hfence, hrhs]

/-- C6 witness: the equivalence on a concrete fence-free object body. -/
theorem C6_witness :
    normalizeResponse ("```json\n" ++ "\x7b\"message\":\"hi\",\"operations\":[]\x7d" ++ "\n```") =
      normalizeResponse "\x7b\"message\":\"hi\",\"operations\":[]\x7d" :=
  C6_theorem "\x7b\"message\":\"hi\",\"operations\":[]\x7d"
    ⟨[("message", .str "hi"), ("operations", .arr [])], by rfl⟩ (by decide)

end BuildFlow
